import Mathlib

/-!
# React-Flow-MCP-Server: verification of the request-handling pipeline

Shallow embedding of the server's request-handling pipeline (parameter
validation, circuit-breaker wrapping, cache-backed dispatch to lookup
handlers) together with the lookup handlers' name-resolution logic.

Sources embedded:
* `src/utils/validation.ts` — zod method schemas and `validateAndSanitizeParams`.
* `src/handler.ts` — `handleRequest` and the `call_tool` request handler.
* `src/tools/...` — the lookup handlers (`getComponentInfo`, `getHookInfo`,
  `getTypeInfo`, `getUtilityInfo`, `getExampleInfo`, `getDocsInfo`,
  `searchExamples`, and the `list_*` renderers) and the tool registry.
* `src/utils/cache.ts` and `src/utils/circuit-breaker.ts` are referenced by the
  repository (imports, project layout in the README) but their sources are not
  available; the `Cache` and `CircuitBreaker` components are modelled from the
  specification (marked `Modelled from the spec:` below).

Catalog prose that no pipeline decision reads (the long `props`/`example`/
`content`/`code` bodies of the static data tables) is out of scope per the
specification ("the actual catalog content — an inert key-value data source");
tables below carry the fields the lookup logic and the user-visible messages
read: keys, display names, types, titles, descriptions and tags, all verbatim
from the source.
-/

namespace RFMcp

/-! ## JavaScript values and parameter objects -/

/-- A JavaScript value as it appears in request parameters. Objects are
association lists of fields. -/
inductive JValue where
  | str (s : String)
  | num (n : Int)
  | boolean (b : Bool)
  | null
  | obj (fields : List (String × JValue))
deriving Repr

/-- A parameter object: the fields of a JS object, in order. -/
abbrev Params := List (String × JValue)

/-- First-match field lookup, as JS property access on our association-list
representation of objects. -/
def getField (p : Params) (k : String) : Option JValue :=
  match p with
  | [] => none
  | (k', v) :: rest => if k' = k then some v else getField rest k

/-- JS truthiness, used by handlers that test `if (category)` etc. -/
def JValue.truthy : JValue → Bool
  | .str s => !s.isEmpty
  | .num n => n != 0
  | .boolean b => b
  | .null => false
  | .obj _ => true

/-- JS template-literal rendering of a possibly-absent value (`undefined`
prints as "undefined"), used where handlers interpolate raw parameters into
log messages and cache keys. -/
def jsShow : Option JValue → String
  | none => "undefined"
  | some (.str s) => s
  | some (.num n) => toString n
  | some (.boolean b) => if b then "true" else "false"
  | some .null => "null"
  | some (.obj _) => "[object Object]"

/-- JS `typeof`-style name used in zod type-mismatch messages. -/
def jsTypeName : JValue → String
  | .str _ => "string"
  | .num _ => "number"
  | .boolean _ => "boolean"
  | .null => "null"
  | .obj _ => "object"

/-! ## Validation (`src/utils/validation.ts`)

The zod schemas in `methodSchemas` use three field shapes:
`z.string().min(1).max(1000)` (the shared `stringSchema`),
`z.string().optional()` (`optionalStringSchema`), and `z.any().optional()`.
-/

/-- One zod field rule as used in `methodSchemas`. -/
inductive FieldSchema where
  | requiredString   -- `stringSchema = z.string().min(1).max(1000)`
  | optionalString   -- `optionalStringSchema = z.string().optional()`
  | anyOptional      -- `z.any().optional()`
deriving DecidableEq, Repr

/-- Check a single declared field against its rule; `none` means the field
passes, `some (path, message)` is the zod issue for that field. -/
def checkField (f : String) (fs : FieldSchema) (v : Option JValue) :
    Option (String × String) :=
  match fs, v with
  | .requiredString, none => some (f, "Required")
  | .requiredString, some (.str s) =>
      if s.length < 1 then
        some (f, "String must contain at least 1 character(s)")
      else if 1000 < s.length then
        some (f, "String must contain at most 1000 character(s)")
      else none
  | .requiredString, some v => some (f, "Expected string, received " ++ jsTypeName v)
  | .optionalString, none => none
  | .optionalString, some (.str _) => none
  | .optionalString, some v => some (f, "Expected string, received " ++ jsTypeName v)
  | .anyOptional, _ => none

/-- `z.object(...).parse`: collect the issues of every declared field; on
success return the object restricted to the declared fields (zod strips
undeclared keys). -/
def zodParse (schema : List (String × FieldSchema)) (p : Params) :
    Except (List (String × String)) Params :=
  let errs := schema.filterMap (fun fp => checkField fp.1 fp.2 (getField p fp.1))
  if errs.isEmpty then
    .ok (schema.filterMap (fun fp => (getField p fp.1).map (fun v => (fp.1, v))))
  else .error errs

/-- The `methodSchemas` table of `src/utils/validation.ts`, verbatim. -/
def methodSchemas : List (String × List (String × FieldSchema)) :=
  [ ("get_react_flow_component", [("componentName", .requiredString)]),
    ("list_react_flow_components", [("category", .optionalString)]),
    ("get_react_flow_hook", [("hookName", .requiredString)]),
    ("list_react_flow_hooks", [("category", .optionalString)]),
    ("get_react_flow_type", [("typeName", .requiredString)]),
    ("list_react_flow_types", [("category", .optionalString)]),
    ("get_react_flow_utility", [("utilityName", .requiredString)]),
    ("list_react_flow_utilities", []),
    ("get_react_flow_example", [("exampleType", .requiredString)]),
    ("search_react_flow_examples", [("query", .requiredString)]),
    ("get_react_flow_docs", [("topic", .requiredString)]),
    ("list_resources", []),
    ("list_resource_templates", []),
    ("list_tools", []),
    ("list_prompts", []),
    ("read_resource", [("uri", .requiredString)]),
    ("get_prompt", [("name", .requiredString), ("arguments", .anyOptional)]),
    ("call_tool", [("name", .requiredString), ("arguments", .anyOptional)]) ]

/-- Association-list lookup on the schema table (and reused for the other
string-keyed tables below). -/
def lookupTable {α : Type} (t : List (String × α)) (k : String) : Option α :=
  match t with
  | [] => none
  | (k', v) :: rest => if k' = k then some v else lookupTable rest k

/-- `validateAndSanitizeParams(method, params)` from `src/utils/validation.ts`.
Returns the validation outcome together with the warnings it logged
(`logWarning` for a method that has no schema). A thrown `Error` is the
`.error` case carrying the thrown message. -/
def validateAndSanitizeParams (method : String) (params : Option Params) :
    Except String Params × List String :=
  match lookupTable methodSchemas method with
  | none =>
      (.ok (params.getD []), ["No validation schema found for method: " ++ method])
  | some schema =>
      match zodParse schema (params.getD []) with
      | .ok v => (.ok v, [])
      | .error errs =>
          (.error ("Validation failed for " ++ method ++ ": " ++
            String.intercalate ", " (errs.map (fun e => e.1 ++ ": " ++ e.2))), [])

/-! ## Cache

`src/utils/cache.ts` is referenced by every handler but its source is not
available; modelled from the spec. -/

/-- Modelled from the spec: §4.1 Cache (`src/utils/cache.ts` is missing from
the available sources). Entries map a key to a value and an absolute
`expiresAt` timestamp. -/
structure Cache (α : Type) where
  entries : List (String × α × Nat)
deriving Repr, DecidableEq

/-- Modelled from the spec: `get(key)` returns the stored value only while
`now < expiresAt`; absent if the key was never set or the entry expired. No
side effect on miss. -/
def Cache.get {α : Type} (c : Cache α) (now : Nat) (key : String) : Option α :=
  match lookupTable c.entries key with
  | some (v, expiresAt) => if now < expiresAt then some v else none
  | none => none

/-- Modelled from the spec: `set(key, value, ttlMs)` stores the value with
`expiresAt = now + ttlMs`, overwriting any prior entry for that key. -/
def Cache.set {α : Type} (c : Cache α) (now : Nat) (key : String) (v : α)
    (ttlMs : Nat) : Cache α :=
  ⟨(key, v, now + ttlMs) :: c.entries.filter (fun e => e.1 ≠ key)⟩

/-- The keys a cache currently holds entries for (expired or not). -/
def Cache.keys {α : Type} (c : Cache α) : List String := c.entries.map Prod.fst

/-! ## Circuit breaker

`src/utils/circuit-breaker.ts` is referenced by the dispatcher but its source
is not available; the state machine is modelled from the spec (§4.2). The
state named `open` in the spec is the constructor `opened` (`open` is a Lean
keyword). -/

/-- Breaker states: `closed` / `open` / `half-open`. -/
inductive BState where
  | closed
  | opened
  | halfOpen
deriving DecidableEq, Repr

/-- Modelled from the spec: §3 CircuitBreakerState. Configuration
(`failureThreshold`, `resetTimeoutMs`) is fixed at construction. -/
structure CircuitBreaker where
  failureThreshold : Nat
  resetTimeoutMs : Nat
  state : BState := .closed
  consecutiveFailures : Nat := 0
  lastFailureTime : Option Nat := none
deriving DecidableEq, Repr

/-- Modelled from the spec: the admission test at the start of `execute`.
In `open`, if `now − lastFailureTime ≥ resetTimeoutMs` the breaker
transitions to `half-open` and the invocation is allowed through; otherwise
it is rejected. `closed` and `half-open` allow the invocation. -/
def CircuitBreaker.admit (cb : CircuitBreaker) (now : Nat) :
    Bool × CircuitBreaker :=
  match cb.state with
  | .opened =>
      match cb.lastFailureTime with
      | some t =>
          if cb.resetTimeoutMs ≤ now - t then (true, { cb with state := .halfOpen })
          else (false, cb)
      | none => (false, cb)
  | _ => (true, cb)

/-- Modelled from the spec: on a successful invocation the breaker is
`closed` and `consecutiveFailures` resets to 0 (covers both the `closed`
and the `half-open` trial cases). -/
def CircuitBreaker.onSuccess (cb : CircuitBreaker) : CircuitBreaker :=
  { cb with state := .closed, consecutiveFailures := 0 }

/-- Modelled from the spec: on a failing invocation. In the `half-open`
trial, transition back to `open` and update `lastFailureTime`; otherwise
increment `consecutiveFailures`, and on reaching `failureThreshold`
transition to `open` recording `lastFailureTime = now`. -/
def CircuitBreaker.onFailure (cb : CircuitBreaker) (now : Nat) : CircuitBreaker :=
  match cb.state with
  | .halfOpen => { cb with state := .opened, lastFailureTime := some now }
  | _ =>
      let cf := cb.consecutiveFailures + 1
      if cb.failureThreshold ≤ cf then
        { cb with consecutiveFailures := cf, state := .opened, lastFailureTime := some now }
      else { cb with consecutiveFailures := cf }

/-- Result of one breaker-guarded invocation of a piece of work. -/
inductive ExecResult (ε α : Type) where
  | ok (a : α)
  | failed (e : ε)
  | circuitOpen
deriving DecidableEq, Repr

/-- Modelled from the spec: `execute(work)` where the work's outcome is the
given `Except` value. Returns the result, the updated breaker, and whether
the work was actually invoked. -/
def CircuitBreaker.execute {ε α : Type} (cb : CircuitBreaker) (now : Nat)
    (work : Except ε α) : ExecResult ε α × CircuitBreaker × Bool :=
  match cb.admit now with
  | (false, cb') => (.circuitOpen, cb', false)
  | (true, cb') =>
      match work with
      | .ok a => (.ok a, cb'.onSuccess, true)
      | .error e => (.failed e, cb'.onFailure now, true)

/-- `n` consecutive invocations of failing work at time `t`, tracking only
the breaker state. -/
def CircuitBreaker.afterFailures (cb : CircuitBreaker) (t : Nat) :
    Nat → CircuitBreaker
  | 0 => cb
  | n + 1 =>
      (((cb.afterFailures t n).execute t (Except.error () : Except Unit Unit)).2).1

/-! ## Response payloads, errors, and the pipeline state -/

/-- One item of a response payload: `{ type: "text", text }`. -/
structure ContentItem where
  type_ : String
  text : String
deriving DecidableEq, Repr

/-- The uniform handler payload `{ content: [ { type, text } ] }`. -/
structure ToolResult where
  content : List ContentItem
deriving DecidableEq, Repr

/-- Build the uniform single-text payload every lookup handler returns. -/
def mkText (t : String) : ToolResult := ⟨[⟨"text", t⟩]⟩

/-- Errors that can cross the dispatcher boundary. -/
inductive PErr where
  | validation (msg : String)   -- thrown by `validateAndSanitizeParams`
  | circuitOpen                 -- breaker rejection
  | handler (msg : String)      -- any error thrown inside a handler
deriving DecidableEq, Repr

/-- Entries of the logger (`logInfo` / `logWarning` / `logError`). -/
inductive LogEntry where
  | info (msg : String)
  | warn (msg : String)
  | err (msg : String)
deriving DecidableEq, Repr

/-- Observation events: entries into `circuitBreakers.external.execute`,
breaker rejections, and handler invocations (at the handler's opening
`logInfo`). -/
inductive Event where
  | breakerEnter
  | breakerReject
  | handlerRun (name : String)
deriving DecidableEq, Repr

/-- The process-wide mutable state the pipeline threads: the shared breaker,
the shared cache, the current time, the log, and the observation trace. -/
@[ext]
structure Sys where
  cb : CircuitBreaker
  cache : Cache ToolResult
  now : Nat
  log : List LogEntry := []
  trace : List Event := []
deriving DecidableEq

/-- Append warning lines (from validation) to the log. -/
def Sys.addWarnings (s : Sys) (ws : List String) : Sys :=
  { s with log := s.log ++ ws.map LogEntry.warn }

/-- Append the dispatcher's `logError` line. -/
def Sys.logErr (s : Sys) (msg : String) : Sys :=
  { s with log := s.log ++ [LogEntry.err msg] }

/-- A handler's opening `logInfo`, also recorded as a `handlerRun` event. -/
def Sys.enter (s : Sys) (name msg : String) : Sys :=
  { s with log := s.log ++ [LogEntry.info msg],
           trace := s.trace ++ [Event.handlerRun name] }

/-- A stateful unit of work as passed to the breaker: it may read and write
the shared state (the `call_tool` closure re-enters the breaker itself). -/
abbrev Work := Sys → Except PErr ToolResult × Sys

/-- `circuitBreakers.external.execute(work)` acting on the shared state:
admission per `CircuitBreaker.admit`, then the work runs and the breaker is
updated from its outcome. A `breakerEnter` event is recorded on entry and a
`breakerReject` event when the call is rejected with `CircuitOpenError`. -/
def Sys.breakerExecute (s : Sys) (work : Work) : Except PErr ToolResult × Sys :=
  let s1 : Sys := { s with trace := s.trace ++ [Event.breakerEnter] }
  match s1.cb.admit s1.now with
  | (true, cb') =>
      match work { s1 with cb := cb' } with
      | (.ok v, s2) => (.ok v, { s2 with cb := s2.cb.onSuccess })
      | (.error e, s2) => (.error e, { s2 with cb := s2.cb.onFailure s2.now })
  | (false, cb') =>
      (.error .circuitOpen,
        { s1 with cb := cb', trace := s1.trace ++ [Event.breakerReject] })

/-- `handleRequest` from `src/handler.ts`: validate and sanitize the input
parameters, execute the handler with circuit-breaker protection, and on any
error log `Error in ${method}` and rethrow the error unchanged. -/
def handleRequest (method : String) (params : Option Params) (handler : Params → Work)
    (s : Sys) : Except PErr ToolResult × Sys :=
  let vr := validateAndSanitizeParams method params
  let s1 := s.addWarnings vr.2
  match vr.1 with
  | .error msg => (.error (.validation msg), s1.logErr ("Error in " ++ method))
  | .ok validatedParams =>
      match s1.breakerExecute (handler validatedParams) with
      | (.ok r, s2) => (.ok r, s2)
      | (.error e, s2) => (.error e, s2.logErr ("Error in " ++ method))

/-! ## Name normalization used by the lookup handlers -/

/-- JS `toLowerCase()` (all catalog keys and inputs of interest are ASCII). -/
def jsToLower (s : String) : String := ⟨s.data.map Char.toLower⟩

/-- `componentName.toLowerCase().replace(/[<>\/\s]/g, '')` from
`getComponentInfo`. -/
def normalizeComponentName (s : String) : String :=
  ⟨(jsToLower s).data.filter (fun c => !(c == '<' || c == '>' || c == '/' || c.isWhitespace))⟩

/-- `typeName.toLowerCase().replace(/[<>]/g, '')` from `getTypeInfo`. -/
def normalizeTypeName (s : String) : String :=
  ⟨(jsToLower s).data.filter (fun c => !(c == '<' || c == '>'))⟩

/-- `name.toLowerCase().replace(/[()]/g, '')` from `getHookInfo` and
`getUtilityInfo`. -/
def normalizeParenName (s : String) : String :=
  ⟨(jsToLower s).data.filter (fun c => !(c == '(' || c == ')'))⟩

/-- `replace(/\s+/g, '-')`: each maximal whitespace run becomes one dash.
The flag says whether we are inside a whitespace run. -/
def wsRunsToDash : List Char → Bool → List Char
  | [], _ => []
  | c :: rest, inRun =>
      if c.isWhitespace then
        (if inRun then ([] : List Char) else ['-']) ++ wsRunsToDash rest true
      else c :: wsRunsToDash rest false

/-- `topic.toLowerCase().replace(/\s+/g, '-')` from `getDocsInfo` (and the
same normalization of `exampleType` in `getExampleInfo`). -/
def normalizeDashed (s : String) : String := ⟨wsRunsToDash (jsToLower s).data false⟩

/-! ## Component lookup (`src/tools/components/get-component.ts`) -/

/-- An entry of the `components` table. The rendered markdown additionally
appends the entry's `props`/`example` catalog prose, which the spec scopes
out and no claim reads; the fields the lookup logic and messages read are
carried verbatim. -/
structure ComponentEntry where
  name : String
  type_ : String
  description : String
deriving DecidableEq, Repr

/-- The `components` table of `getComponentInfo`, keys and carried fields
verbatim from the source. -/
def components : List (String × ComponentEntry) :=
  [ ("reactflow", ⟨"<ReactFlow />", "Core Component",
      "The main component for rendering interactive node-based graphs. It handles panning, zooming, selecting, and connecting nodes."⟩),
    ("reactflowprovider", ⟨"<ReactFlowProvider />", "Provider Component",
      "Context provider that enables React Flow hooks to be used outside of the ReactFlow component. Required when using hooks like useReactFlow() in parent components."⟩),
    ("background", ⟨"<Background />", "Helper Component",
      "Renders a customizable background pattern (dots, lines, or cross) behind the flow."⟩),
    ("controls", ⟨"<Controls />", "Helper Component",
      "Renders zoom and fit-view controls for the flow."⟩),
    ("minimap", ⟨"<MiniMap />", "Helper Component",
      "Renders a small overview map of the entire flow for navigation."⟩),
    ("panel", ⟨"<Panel />", "Helper Component",
      "A helper component to render content on top of the flow at specific positions."⟩),
    ("handle", ⟨"<Handle />", "Node Component",
      "Connection point for edges on custom nodes. Handles define where edges can connect."⟩),
    ("baseedge", ⟨"<BaseEdge />", "Edge Component",
      "Base component for creating custom edges. Renders the SVG path for an edge."⟩),
    ("edgelabelrenderer", ⟨"<EdgeLabelRenderer />", "Edge Component",
      "Renders edge labels outside the SVG context for better styling capabilities and performance."⟩),
    ("noderesizer", ⟨"<NodeResizer />", "Node Component",
      "Adds resize handles to custom nodes, allowing users to resize nodes interactively."⟩),
    ("nodetoolbar", ⟨"<NodeToolbar />", "Node Component",
      "Renders a toolbar that appears when a node is selected."⟩),
    ("viewportportal", ⟨"<ViewportPortal />", "Helper Component",
      "Renders content in the viewport coordinate system, useful for custom overlays that should transform with the viewport."⟩),
    ("controlbutton", ⟨"<ControlButton />", "Helper Component",
      "A button component for adding custom buttons to the Controls panel."⟩) ]

/-- Head of the markdown `getComponentInfo` renders for a found entry (the
`props`/`example` sections that follow are out-of-scope catalog prose). -/
def renderComponentInfo (c : ComponentEntry) : String :=
  "# " ++ c.name ++ "\n\n**Type:** " ++ c.type_ ++ "\n\n**Description:** " ++
    c.description ++ "\n\n"

/-- `getComponentInfo(componentName)`: normalize the name, look it up, and
return either the rendered entry or the not-found payload listing the
available component display names. -/
def getComponentInfo (componentName : String) : ToolResult :=
  let normalizedName := normalizeComponentName componentName
  match lookupTable components normalizedName with
  | none =>
      mkText ("Component \"" ++ componentName ++ "\" not found. Available components: " ++
        String.intercalate ", " (components.map (fun e => e.2.name)))
  | some component => mkText (renderComponentInfo component)

/-- `handleGetComponent`: log, check the cache under
`react-flow-component-${componentName.toLowerCase()}`, compute on a miss and
cache for 30 minutes. A non-string `componentName` throws a `TypeError` at
`componentName.toLowerCase()`. -/
def handleGetComponent (p : Params) : Work := fun s =>
  let v := getField p "componentName"
  let s := s.enter "get_react_flow_component" ("Getting React Flow component: " ++ jsShow v)
  match v with
  | some (.str componentName) =>
      let cacheKey := "react-flow-component-" ++ jsToLower componentName
      match s.cache.get s.now cacheKey with
      | some cached => (.ok cached, s)
      | none =>
          let componentInfo := getComponentInfo componentName
          (.ok componentInfo,
            { s with cache := s.cache.set s.now cacheKey componentInfo (30 * 60 * 1000) })
  | _ => (.error (.handler "TypeError: componentName.toLowerCase is not a function"), s)

/-! ## Hook lookup (`src/tools/hooks/get-hook.ts`) -/

/-- An entry of the `hooks` table of `getHookInfo`; as with components, the
`parameters`/`returns`/`methods`/`example` prose is out-of-scope catalog
content. -/
structure HookEntry where
  name : String
  type_ : String
  description : String
deriving DecidableEq, Repr

/-- The `hooks` table of `getHookInfo`, keys and carried fields verbatim. -/
def hooks : List (String × HookEntry) :=
  [ ("usereactflow", ⟨"useReactFlow()", "Core Hook",
      "Returns the React Flow instance with methods for programmatic control. Must be used within ReactFlowProvider."⟩),
    ("usenodes", ⟨"useNodes()", "State Hook",
      "Returns the current nodes array. Re-renders when nodes change."⟩),
    ("useedges", ⟨"useEdges()", "State Hook",
      "Returns the current edges array. Re-renders when edges change."⟩),
    ("usenodesstate", ⟨"useNodesState(initialNodes)", "State Hook",
      "A convenience hook that returns nodes state, setter, and change handler. Useful for quick setup."⟩),
    ("useedgesstate", ⟨"useEdgesState(initialEdges)", "State Hook",
      "A convenience hook that returns edges state, setter, and change handler. Useful for quick setup."⟩),
    ("usenodeid", ⟨"useNodeId()", "Node Hook",
      "Returns the ID of the current node. Only works inside custom node components."⟩),
    ("usenodesdata", ⟨"useNodesData(nodeIds)", "Data Hook",
      "Returns the data of specified nodes. Useful for accessing data from multiple nodes efficiently."⟩),
    ("useconnection", ⟨"useConnection()", "Connection Hook",
      "Returns information about the current connection being made by the user."⟩),
    ("usehandleconnections", ⟨"useHandleConnections({ type, id })", "Connection Hook",
      "Returns all connections for a specific handle. Useful in custom nodes to know what is connected."⟩),
    ("usenodeconnections", ⟨"useNodeConnections({ type })", "Connection Hook",
      "Returns all connections for the current node. Only works inside custom node components."⟩),
    ("useviewport", ⟨"useViewport()", "Viewport Hook",
      "Returns the current viewport (x, y, zoom). Re-renders on viewport changes."⟩),
    ("useonviewportchange", ⟨"useOnViewportChange({ onStart, onChange, onEnd })", "Viewport Hook",
      "Registers callbacks for viewport change events without re-rendering."⟩),
    ("useonselectionchange", ⟨"useOnSelectionChange({ onChange })", "Selection Hook",
      "Registers a callback for selection changes without re-rendering."⟩),
    ("usekeypress", ⟨"useKeyPress(keyCode)", "Interaction Hook",
      "Returns whether a key is currently pressed."⟩),
    ("usestore", ⟨"useStore(selector)", "Store Hook",
      "Access the internal zustand store with a selector for fine-grained subscriptions."⟩),
    ("usestoreapi", ⟨"useStoreApi()", "Store Hook",
      "Returns the store API for reading state without subscribing to changes."⟩),
    ("useupdatenodeinternals", ⟨"useUpdateNodeInternals()", "Utility Hook",
      "Returns a function to update node internals (handle positions). Useful when handles change dynamically."⟩),
    ("usenodesinitialized", ⟨"useNodesInitialized(options?)", "Utility Hook",
      "Returns true when all nodes have been measured and have dimensions."⟩),
    ("useinternalnode", ⟨"useInternalNode(nodeId)", "Utility Hook",
      "Returns internal node data including computed dimensions. Useful for advanced customizations."⟩) ]

/-- Head of the markdown `getHookInfo` renders for a found entry. -/
def renderHookInfo (h : HookEntry) : String :=
  "# " ++ h.name ++ "\n\n**Type:** " ++ h.type_ ++ "\n\n**Description:** " ++
    h.description ++ "\n\n"

/-- `getHookInfo(hookName)`. -/
def getHookInfo (hookName : String) : ToolResult :=
  let normalizedName := normalizeParenName hookName
  match lookupTable hooks normalizedName with
  | none =>
      mkText ("Hook \"" ++ hookName ++ "\" not found. Available hooks: " ++
        String.intercalate ", " (hooks.map (fun e => e.2.name)))
  | some hook => mkText (renderHookInfo hook)

/-- `handleGetHook`: cache key `react-flow-hook-${hookName.toLowerCase()}`,
TTL 30 minutes. -/
def handleGetHook (p : Params) : Work := fun s =>
  let v := getField p "hookName"
  let s := s.enter "get_react_flow_hook" ("Getting React Flow hook: " ++ jsShow v)
  match v with
  | some (.str hookName) =>
      let cacheKey := "react-flow-hook-" ++ jsToLower hookName
      match s.cache.get s.now cacheKey with
      | some cached => (.ok cached, s)
      | none =>
          let hookInfo := getHookInfo hookName
          (.ok hookInfo,
            { s with cache := s.cache.set s.now cacheKey hookInfo (30 * 60 * 1000) })
  | _ => (.error (.handler "TypeError: hookName.toLowerCase is not a function"), s)

/-! ## Type lookup (`src/tools/types/get-type.ts`) -/

/-- An entry of the `types` table of `getTypeInfo`; the
`properties`/`variants`/`values`/`signature`/`example` prose is out-of-scope
catalog content. -/
structure TypeEntry where
  name : String
  type_ : String
  description : String
deriving DecidableEq, Repr

/-- The `types` table of `getTypeInfo`, keys and carried fields verbatim. -/
def typesTable : List (String × TypeEntry) :=
  [ ("node", ⟨"Node<T>", "Core Type",
      "Represents a node in the flow. Generic type T defines the data shape."⟩),
    ("edge", ⟨"Edge<T>", "Core Type",
      "Represents an edge (connection) between two nodes. Generic type T defines the data shape."⟩),
    ("connection", ⟨"Connection", "Core Type",
      "Represents a connection being made or a completed connection between handles."⟩),
    ("viewport", ⟨"Viewport", "Core Type",
      "Represents the current view state of the flow canvas."⟩),
    ("xyposition", ⟨"XYPosition", "Geometry Type",
      "A simple x/y coordinate pair."⟩),
    ("rect", ⟨"Rect", "Geometry Type",
      "A rectangle with position and dimensions."⟩),
    ("nodechange", ⟨"NodeChange", "Change Type",
      "Union type representing all possible node changes. Used with onNodesChange callback."⟩),
    ("edgechange", ⟨"EdgeChange", "Change Type",
      "Union type representing all possible edge changes. Used with onEdgesChange callback."⟩),
    ("position", ⟨"Position", "Enum Type",
      "Enum for handle and toolbar positions."⟩),
    ("markertype", ⟨"MarkerType", "Enum Type",
      "Enum for edge marker types."⟩),
    ("connectionmode", ⟨"ConnectionMode", "Enum Type",
      "Enum for connection mode behavior."⟩),
    ("panelposition", ⟨"PanelPosition", "Enum Type",
      "Positions for Panel, Controls, and MiniMap components."⟩),
    ("nodetypes", ⟨"NodeTypes", "Configuration Type",
      "Record type mapping node type names to custom node components."⟩),
    ("edgetypes", ⟨"EdgeTypes", "Configuration Type",
      "Record type mapping edge type names to custom edge components."⟩),
    ("onconnect", ⟨"OnConnect", "Callback Type",
      "Callback type for when a new connection is created."⟩),
    ("onnodeschange", ⟨"OnNodesChange", "Callback Type",
      "Callback type for node change events."⟩),
    ("onedgeschange", ⟨"OnEdgesChange", "Callback Type",
      "Callback type for edge change events."⟩) ]

/-- Head of the markdown `getTypeInfo` renders for a found entry. -/
def renderTypeInfo (t : TypeEntry) : String :=
  "# " ++ t.name ++ "\n\n**Type:** " ++ t.type_ ++ "\n\n**Description:** " ++
    t.description ++ "\n\n"

/-- `getTypeInfo(typeName)`. -/
def getTypeInfo (typeName : String) : ToolResult :=
  let normalizedName := normalizeTypeName typeName
  match lookupTable typesTable normalizedName with
  | none =>
      mkText ("Type \"" ++ typeName ++ "\" not found. Available types: " ++
        String.intercalate ", " (typesTable.map (fun e => e.2.name)))
  | some typeData => mkText (renderTypeInfo typeData)

/-- `handleGetType`: cache key `react-flow-type-${typeName.toLowerCase()}`,
TTL 30 minutes. -/
def handleGetType (p : Params) : Work := fun s =>
  let v := getField p "typeName"
  let s := s.enter "get_react_flow_type" ("Getting React Flow type: " ++ jsShow v)
  match v with
  | some (.str typeName) =>
      let cacheKey := "react-flow-type-" ++ jsToLower typeName
      match s.cache.get s.now cacheKey with
      | some cached => (.ok cached, s)
      | none =>
          let typeInfo := getTypeInfo typeName
          (.ok typeInfo,
            { s with cache := s.cache.set s.now cacheKey typeInfo (30 * 60 * 1000) })
  | _ => (.error (.handler "TypeError: typeName.toLowerCase is not a function"), s)

/-! ## Utility lookup (`src/tools/utilities/get-utility.ts`) -/

/-- An entry of the `utilities` table of `getUtilityInfo`; the
`signature`/`parameters`/`returns`/`example` prose is out-of-scope catalog
content. -/
structure UtilityEntry where
  name : String
  type_ : String
  description : String
deriving DecidableEq, Repr

/-- The `utilities` table of `getUtilityInfo`, keys and carried fields
verbatim. -/
def utilities : List (String × UtilityEntry) :=
  [ ("addedge", ⟨"addEdge()", "Edge Utility",
      "Adds a new edge to an existing array of edges. Prevents duplicate edges."⟩),
    ("applynodechanges", ⟨"applyNodeChanges()", "Node Utility",
      "Applies an array of node changes to an existing array of nodes. Handles position, selection, dimensions, and removal."⟩),
    ("applyedgechanges", ⟨"applyEdgeChanges()", "Edge Utility",
      "Applies an array of edge changes to an existing array of edges. Handles selection and removal."⟩),
    ("reconnectedge", ⟨"reconnectEdge()", "Edge Utility",
      "Updates an edge with a new connection. Used when implementing edge reconnection."⟩),
    ("getbezierpath", ⟨"getBezierPath()", "Path Utility",
      "Calculates a bezier curve path between two points. Returns path string and label position."⟩),
    ("getsimplebezierpath", ⟨"getSimpleBezierPath()", "Path Utility",
      "Calculates a simple bezier path (single control point) between two points."⟩),
    ("getsmoothsteppath", ⟨"getSmoothStepPath()", "Path Utility",
      "Calculates a smooth step path (rounded corners) between two points."⟩),
    ("getstraightpath", ⟨"getStraightPath()", "Path Utility",
      "Calculates a straight line path between two points."⟩),
    ("getconnectededges", ⟨"getConnectedEdges()", "Graph Utility",
      "Returns all edges connected to a set of nodes."⟩),
    ("getincomers", ⟨"getIncomers()", "Graph Utility",
      "Returns all nodes that have edges pointing to the target node."⟩),
    ("getoutgoers", ⟨"getOutgoers()", "Graph Utility",
      "Returns all nodes that the source node has edges pointing to."⟩),
    ("getnodesbounds", ⟨"getNodesBounds()", "Layout Utility",
      "Calculates the bounding box that contains all provided nodes."⟩),
    ("getviewportforbounds", ⟨"getViewportForBounds()", "Layout Utility",
      "Calculates the viewport settings needed to fit given bounds in a container."⟩),
    ("isnode", ⟨"isNode()", "Validation Utility",
      "Type guard to check if an element is a Node."⟩),
    ("isedge", ⟨"isEdge()", "Validation Utility",
      "Type guard to check if an element is an Edge."⟩) ]

/-- Head of the markdown `getUtilityInfo` renders for a found entry. -/
def renderUtilityInfo (u : UtilityEntry) : String :=
  "# " ++ u.name ++ "\n\n**Type:** " ++ u.type_ ++ "\n\n**Description:** " ++
    u.description ++ "\n\n"

/-- `getUtilityInfo(utilityName)`. -/
def getUtilityInfo (utilityName : String) : ToolResult :=
  let normalizedName := normalizeParenName utilityName
  match lookupTable utilities normalizedName with
  | none =>
      mkText ("Utility \"" ++ utilityName ++ "\" not found. Available utilities: " ++
        String.intercalate ", " (utilities.map (fun e => e.2.name)))
  | some utility => mkText (renderUtilityInfo utility)

/-- `handleGetUtility`: cache key
`react-flow-utility-${utilityName.toLowerCase()}`, TTL 30 minutes. -/
def handleGetUtility (p : Params) : Work := fun s =>
  let v := getField p "utilityName"
  let s := s.enter "get_react_flow_utility" ("Getting React Flow utility: " ++ jsShow v)
  match v with
  | some (.str utilityName) =>
      let cacheKey := "react-flow-utility-" ++ jsToLower utilityName
      match s.cache.get s.now cacheKey with
      | some cached => (.ok cached, s)
      | none =>
          let utilityInfo := getUtilityInfo utilityName
          (.ok utilityInfo,
            { s with cache := s.cache.set s.now cacheKey utilityInfo (30 * 60 * 1000) })
  | _ => (.error (.handler "TypeError: utilityName.toLowerCase is not a function"), s)

/-! ## Example lookup (`src/tools/examples/get-example.ts`) -/

/-- An entry of the `examples` table of `getExampleInfo`; the `code` body is
out-of-scope catalog content. -/
structure ExampleEntry where
  name : String
  description : String
  tags : List String
deriving DecidableEq, Repr

/-- The `examples` table of `getExampleInfo`, keys and carried fields
verbatim. -/
def examples : List (String × ExampleEntry) :=
  [ ("basic-flow", ⟨"Basic Flow",
      "A simple React Flow setup with nodes, edges, and basic interactivity.",
      ["beginner", "setup", "nodes", "edges"]⟩),
    ("custom-node", ⟨"Custom Node",
      "Creating a custom node component with handles and custom styling.",
      ["intermediate", "custom", "nodes", "handles"]⟩),
    ("custom-edge", ⟨"Custom Edge",
      "Creating a custom edge with a button to delete the connection.",
      ["intermediate", "custom", "edges"]⟩),
    ("drag-and-drop", ⟨"Drag and Drop",
      "Adding nodes via drag and drop from a sidebar.",
      ["intermediate", "drag-drop", "add-nodes"]⟩),
    ("sub-flows", ⟨"Sub Flows (Nested Nodes)",
      "Creating nodes that contain other nodes using parent-child relationships.",
      ["advanced", "nested", "groups", "layout"]⟩),
    ("validation", ⟨"Connection Validation",
      "Validating connections before they are created.",
      ["intermediate", "validation", "connections"]⟩),
    ("save-restore", ⟨"Save and Restore",
      "Saving flow state to JSON and restoring it.",
      ["intermediate", "persistence", "json"]⟩),
    ("resizable-node", ⟨"Resizable Node",
      "Creating nodes that can be resized by users.",
      ["intermediate", "resize", "custom-node"]⟩),
    ("toolbar-node", ⟨"Node with Toolbar",
      "Adding a toolbar that appears when a node is selected.",
      ["intermediate", "toolbar", "custom-node"]⟩),
    ("layout-elk", ⟨"Auto Layout with ELK",
      "Using ELK.js for automatic graph layout.",
      ["advanced", "layout", "elk", "auto-layout"]⟩) ]

/-- Head of the markdown `getExampleInfo` renders for a found entry (the
`## Code` section that follows is out-of-scope catalog prose). -/
def renderExampleInfo (e : ExampleEntry) : String :=
  "# " ++ e.name ++ "\n\n**Description:** " ++ e.description ++ "\n\n**Tags:** " ++
    String.intercalate ", " e.tags ++ "\n\n"

/-- `getExampleInfo(exampleType)`: the not-found payload enumerates the
example keys with their descriptions. -/
def getExampleInfo (exampleType : String) : ToolResult :=
  let normalizedType := normalizeDashed exampleType
  match lookupTable examples normalizedType with
  | none =>
      mkText ("Example \"" ++ exampleType ++ "\" not found. Available examples:\n\n" ++
        String.intercalate "\n"
          (examples.map (fun e => "- **" ++ e.1 ++ "**: " ++ e.2.description)))
  | some ex => mkText (renderExampleInfo ex)

/-- `handleGetExample`: cache key
`react-flow-example-${exampleType.toLowerCase()}`, TTL 30 minutes. -/
def handleGetExample (p : Params) : Work := fun s =>
  let v := getField p "exampleType"
  let s := s.enter "get_react_flow_example" ("Getting React Flow example: " ++ jsShow v)
  match v with
  | some (.str exampleType) =>
      let cacheKey := "react-flow-example-" ++ jsToLower exampleType
      match s.cache.get s.now cacheKey with
      | some cached => (.ok cached, s)
      | none =>
          let exampleInfo := getExampleInfo exampleType
          (.ok exampleInfo,
            { s with cache := s.cache.set s.now cacheKey exampleInfo (30 * 60 * 1000) })
  | _ => (.error (.handler "TypeError: exampleType.toLowerCase is not a function"), s)

/-! ## Example search (`src/tools/examples/search-examples.ts`) -/

/-- An entry of the search catalog of `searchExamples` (all fields verbatim;
the search logic reads every one of them). -/
structure ExampleMeta where
  id : String
  name : String
  description : String
  tags : List String
deriving DecidableEq, Repr

/-- The `examples` array of `searchExamples`, verbatim. -/
def searchCatalog : List ExampleMeta :=
  [ ⟨"basic-flow", "Basic Flow",
      "A simple React Flow setup with nodes, edges, and basic interactivity.",
      ["beginner", "setup", "nodes", "edges", "getting-started"]⟩,
    ⟨"custom-node", "Custom Node",
      "Creating a custom node component with handles and custom styling.",
      ["intermediate", "custom", "nodes", "handles", "styling"]⟩,
    ⟨"custom-edge", "Custom Edge",
      "Creating a custom edge with a button to delete the connection.",
      ["intermediate", "custom", "edges", "delete", "interactive"]⟩,
    ⟨"drag-and-drop", "Drag and Drop",
      "Adding nodes via drag and drop from a sidebar.",
      ["intermediate", "drag-drop", "add-nodes", "sidebar", "dnd"]⟩,
    ⟨"sub-flows", "Sub Flows (Nested Nodes)",
      "Creating nodes that contain other nodes using parent-child relationships.",
      ["advanced", "nested", "groups", "layout", "parent", "child"]⟩,
    ⟨"validation", "Connection Validation",
      "Validating connections before they are created.",
      ["intermediate", "validation", "connections", "isValidConnection"]⟩,
    ⟨"save-restore", "Save and Restore",
      "Saving flow state to JSON and restoring it.",
      ["intermediate", "persistence", "json", "localStorage", "save", "load"]⟩,
    ⟨"resizable-node", "Resizable Node",
      "Creating nodes that can be resized by users.",
      ["intermediate", "resize", "custom-node", "NodeResizer"]⟩,
    ⟨"toolbar-node", "Node with Toolbar",
      "Adding a toolbar that appears when a node is selected.",
      ["intermediate", "toolbar", "custom-node", "NodeToolbar", "selection"]⟩,
    ⟨"layout-elk", "Auto Layout with ELK",
      "Using ELK.js for automatic graph layout.",
      ["advanced", "layout", "elk", "auto-layout", "algorithm"]⟩,
    ⟨"interactive-minimap", "Interactive MiniMap",
      "Configuring MiniMap with panning and zooming capabilities.",
      ["beginner", "minimap", "navigation", "overview"]⟩,
    ⟨"edge-types", "Built-in Edge Types",
      "Using different built-in edge types: default, straight, step, smoothstep, simplebezier.",
      ["beginner", "edges", "types", "bezier", "step"]⟩,
    ⟨"context-menu", "Context Menu",
      "Adding right-click context menus to nodes and the canvas.",
      ["intermediate", "context-menu", "right-click", "menu"]⟩,
    ⟨"touch-device", "Touch Device Support",
      "Optimizing React Flow for touch devices and mobile.",
      ["intermediate", "touch", "mobile", "gestures"]⟩,
    ⟨"undo-redo", "Undo/Redo",
      "Implementing undo and redo functionality for flow changes.",
      ["advanced", "undo", "redo", "history", "state-management"]⟩ ]

/-- `hay.includes(needle)`: literal substring test. -/
def containsSub (hay needle : String) : Bool :=
  hay.data.tails.any (fun t => needle.data.isPrefixOf t)

/-- The searchable text of one example: its lowercased name, description and
tags joined with spaces (`[...].join(' ')` in the source). -/
def searchableText (e : ExampleMeta) : String :=
  String.intercalate " " ([jsToLower e.name, jsToLower e.description] ++
    e.tags.map jsToLower)

/-- Split a character list at every whitespace character (`acc` holds the
current token, reversed). -/
def splitOnWs : List Char → List Char → List String
  | [], acc => [⟨acc.reverse⟩]
  | c :: rest, acc =>
      if c.isWhitespace then (⟨acc.reverse⟩ : String) :: splitOnWs rest []
      else splitOnWs rest (c :: acc)

/-- The query terms: the lowercased query split at whitespace. The source
splits with `/\s+/` (maximal runs); per-character splitting differs only by
producing extra empty-string terms, and an empty term is a substring of every
text, so the match set is unchanged. -/
def queryTerms (query : String) : List String :=
  splitOnWs (jsToLower query).data []

/-- The match predicate of `searchExamples`: every query term occurs as a
literal substring of the searchable text. -/
def exampleMatches (query : String) (e : ExampleMeta) : Bool :=
  (queryTerms query).all (fun term => containsSub (searchableText e) term)

/-- The filtered matches of `searchExamples(query)`. -/
def searchMatches (query : String) : List ExampleMeta :=
  searchCatalog.filter (exampleMatches query)

/-- The no-match payload text of `searchExamples`. -/
def noExamplesText (query : String) : String :=
  "No examples found for \"" ++ query ++ "\". Try searching for:\n\n" ++
  "- **Concepts**: nodes, edges, custom, layout, drag-drop\n" ++
  "- **Features**: validation, resize, toolbar, minimap\n" ++
  "- **Levels**: beginner, intermediate, advanced\n\n" ++
  "Or use `get_react_flow_example` with a specific example type."

/-- The results rendering of `searchExamples` (`matches` in the source). -/
def renderSearchResults (query : String) (hits : List ExampleMeta) : String :=
  "# Search Results for \"" ++ query ++ "\"\n\n" ++
  "Found " ++ toString hits.length ++ " example(s):\n\n" ++
  String.join (hits.map (fun e =>
    "## " ++ e.name ++ "\n" ++
    "**ID:** `" ++ e.id ++ "`\n" ++
    "**Description:** " ++ e.description ++ "\n" ++
    "**Tags:** " ++ String.intercalate ", " e.tags ++ "\n\n")) ++
  "---\n\n" ++
  "Use `get_react_flow_example` with the example ID to get the full code.\n"

/-- `searchExamples(query)`. -/
def searchExamples (query : String) : ToolResult :=
  let hits := searchMatches query
  if hits.isEmpty then mkText (noExamplesText query)
  else mkText (renderSearchResults query hits)

/-- `handleSearchExamples`: cache key
`react-flow-example-search-${query.toLowerCase()}`, TTL 15 minutes. -/
def handleSearchExamples (p : Params) : Work := fun s =>
  let v := getField p "query"
  let s := s.enter "search_react_flow_examples" ("Searching React Flow examples for: " ++ jsShow v)
  match v with
  | some (.str query) =>
      let cacheKey := "react-flow-example-search-" ++ jsToLower query
      match s.cache.get s.now cacheKey with
      | some cached => (.ok cached, s)
      | none =>
          let result := searchExamples query
          (.ok result,
            { s with cache := s.cache.set s.now cacheKey result (15 * 60 * 1000) })
  | _ => (.error (.handler "TypeError: query.toLowerCase is not a function"), s)

/-! ## Documentation lookup (`src/tools/docs/get-docs.ts`) -/

/-- An entry of the `docs` table of `getDocsInfo`: the title (read by the
not-found listing) is verbatim; the markdown `content` body returned for a
found topic is out-of-scope catalog prose and not carried. -/
structure DocEntry where
  title : String
deriving DecidableEq, Repr

/-- The `docs` table of `getDocsInfo`, keys and titles verbatim. -/
def docs : List (String × DocEntry) :=
  [ ("getting-started", ⟨"Getting Started with React Flow"⟩),
    ("concepts", ⟨"Core Concepts"⟩),
    ("custom-nodes", ⟨"Custom Nodes"⟩),
    ("custom-edges", ⟨"Custom Edges"⟩),
    ("performance", ⟨"Performance Optimization"⟩),
    ("state-management", ⟨"State Management"⟩),
    ("typescript", ⟨"TypeScript Usage"⟩),
    ("accessibility", ⟨"Accessibility"⟩) ]

/-- Stand-in for a found topic's `doc.content` markdown body (out-of-scope
catalog prose; identified here by the topic's title, as the body's heading
is the title). -/
def docContent (d : DocEntry) : String := "# " ++ d.title ++ "\n\n"

/-- `getDocsInfo(topic)`: the not-found payload enumerates topic keys and
titles. -/
def getDocsInfo (topic : String) : ToolResult :=
  let normalizedTopic := normalizeDashed topic
  match lookupTable docs normalizedTopic with
  | none =>
      mkText ("Documentation topic \"" ++ topic ++ "\" not found. Available topics:\n\n" ++
        String.intercalate "\n"
          (docs.map (fun d => "- **" ++ d.1 ++ "**: " ++ d.2.title)) ++
        "\n\nUse `get_react_flow_docs` with one of these topic names.")
  | some doc => mkText (docContent doc)

/-- `handleGetDocs`: cache key `react-flow-docs-${topic.toLowerCase()}`,
TTL 60 minutes. -/
def handleGetDocs (p : Params) : Work := fun s =>
  let v := getField p "topic"
  let s := s.enter "get_react_flow_docs" ("Getting React Flow docs: " ++ jsShow v)
  match v with
  | some (.str topic) =>
      let cacheKey := "react-flow-docs-" ++ jsToLower topic
      match s.cache.get s.now cacheKey with
      | some cached => (.ok cached, s)
      | none =>
          let docsInfo := getDocsInfo topic
          (.ok docsInfo,
            { s with cache := s.cache.set s.now cacheKey docsInfo (60 * 60 * 1000) })
  | _ => (.error (.handler "TypeError: topic.toLowerCase is not a function"), s)

/-! ## Category listings (`list-components.ts`, `list-hooks.ts`,
`list-types.ts`, `list-utilities.ts`) -/

/-- JS `s.charAt(0).toUpperCase() + s.slice(1)`. -/
def jsCapitalize (s : String) : String :=
  match s.data with
  | [] => ""
  | c :: rest => ⟨c.toUpper :: rest⟩

/-- The shared rendering of the category listings: a header, one
`## <Category> <suffix>` section per category with one bullet per item, and
a footer. -/
def renderCategoryList (header sectionSuffix footer : String)
    (cats : List (String × List (String × String))) : String :=
  header ++
  String.join (cats.map (fun c =>
    "## " ++ jsCapitalize c.1 ++ " " ++ sectionSuffix ++ "\n\n" ++
    String.join (c.2.map (fun i => "- **" ++ i.1 ++ "**: " ++ i.2 ++ "\n")) ++ "\n")) ++
  footer

/-- The `components` category table of `getComponentsList`, verbatim. -/
def componentCategories : List (String × List (String × String)) :=
  [ ("core",
      [ ("<ReactFlow />", "Main component for rendering interactive node-based graphs"),
        ("<ReactFlowProvider />", "Context provider for using React Flow hooks outside the main component") ]),
    ("helper",
      [ ("<Background />", "Renders a customizable background pattern (dots, lines, cross)"),
        ("<Controls />", "Renders zoom and fit-view controls"),
        ("<MiniMap />", "Renders a small overview map for navigation"),
        ("<Panel />", "Helper component to render content at specific positions"),
        ("<ViewportPortal />", "Renders content in the viewport coordinate system"),
        ("<ControlButton />", "Custom button component for the Controls panel") ]),
    ("node",
      [ ("<Handle />", "Connection point for edges on custom nodes"),
        ("<NodeResizer />", "Adds resize handles to custom nodes"),
        ("<NodeResizeControl />", "Individual resize control for custom positioning"),
        ("<NodeToolbar />", "Toolbar that appears when a node is selected") ]),
    ("edge",
      [ ("<BaseEdge />", "Base component for creating custom edges"),
        ("<EdgeLabelRenderer />", "Renders edge labels outside SVG for better styling"),
        ("<EdgeToolbar />", "Toolbar that appears when an edge is selected") ]) ]

/-- The `hooks` category table of `getHooksList`, verbatim. -/
def hookCategories : List (String × List (String × String)) :=
  [ ("state",
      [ ("useNodes()", "Returns the current nodes array"),
        ("useEdges()", "Returns the current edges array"),
        ("useNodesState()", "Convenience hook for nodes state management"),
        ("useEdgesState()", "Convenience hook for edges state management"),
        ("useNodesData()", "Returns data of specified nodes") ]),
    ("viewport",
      [ ("useViewport()", "Returns current viewport (x, y, zoom)"),
        ("useOnViewportChange()", "Register viewport change callbacks") ]),
    ("connection",
      [ ("useConnection()", "Returns info about current connection being made"),
        ("useHandleConnections()", "Returns connections for a specific handle"),
        ("useNodeConnections()", "Returns all connections for the current node") ]),
    ("selection",
      [ ("useOnSelectionChange()", "Register selection change callback") ]),
    ("store",
      [ ("useStore()", "Access internal zustand store with selector"),
        ("useStoreApi()", "Returns store API for reading without subscribing") ]),
    ("utility",
      [ ("useReactFlow()", "Returns React Flow instance with control methods"),
        ("useNodeId()", "Returns ID of current node (inside custom nodes)"),
        ("useUpdateNodeInternals()", "Function to update node handle positions"),
        ("useNodesInitialized()", "Returns true when all nodes are measured"),
        ("useInternalNode()", "Returns internal node data with dimensions"),
        ("useKeyPress()", "Returns whether a key is pressed") ]) ]

/-- The `types` category table of `getTypesList`, verbatim. -/
def typeCategories : List (String × List (String × String)) :=
  [ ("core",
      [ ("Node<T>", "Represents a node in the flow with custom data type T"),
        ("Edge<T>", "Represents an edge connecting two nodes"),
        ("Connection", "Represents a connection between handles"),
        ("Viewport", "Current view state (x, y, zoom) of the canvas") ]),
    ("geometry",
      [ ("XYPosition", "Simple x/y coordinate pair"),
        ("Rect", "Rectangle with position and dimensions"),
        ("Dimensions", "Width and height dimensions"),
        ("CoordinateExtent", "Bounding box for node movement") ]),
    ("change",
      [ ("NodeChange", "Union type for all node changes"),
        ("EdgeChange", "Union type for all edge changes"),
        ("NodeAddChange", "Node was added"),
        ("NodeRemoveChange", "Node was removed"),
        ("NodePositionChange", "Node position changed"),
        ("NodeDimensionChange", "Node dimensions changed"),
        ("NodeSelectionChange", "Node selection changed") ]),
    ("enum",
      [ ("Position", "Handle and toolbar positions (Top, Bottom, Left, Right)"),
        ("MarkerType", "Edge marker types (Arrow, ArrowClosed)"),
        ("ConnectionMode", "Connection mode (Strict, Loose)"),
        ("PanelPosition", "Panel positions (top-left, bottom-right, etc.)"),
        ("BackgroundVariant", "Background patterns (Dots, Lines, Cross)"),
        ("SelectionMode", "Selection behavior (Partial, Full)") ]),
    ("configuration",
      [ ("NodeTypes", "Record mapping node type names to components"),
        ("EdgeTypes", "Record mapping edge type names to components"),
        ("FitViewOptions", "Options for fitView behavior"),
        ("DefaultEdgeOptions", "Default options for all edges"),
        ("ProOptions", "React Flow Pro options") ]),
    ("callback",
      [ ("OnConnect", "Callback when a connection is created"),
        ("OnNodesChange", "Callback when nodes change"),
        ("OnEdgesChange", "Callback when edges change"),
        ("OnNodeDrag", "Callback during node drag"),
        ("OnSelectionChange", "Callback when selection changes"),
        ("OnMove", "Callback when viewport moves"),
        ("OnInit", "Callback when React Flow initializes"),
        ("IsValidConnection", "Function to validate connections") ]) ]

/-- The `utilities` category table of `getUtilitiesList`, verbatim. -/
def utilityCategories : List (String × List (String × String)) :=
  [ ("edge",
      [ ("addEdge()", "Add a new edge to an existing array"),
        ("reconnectEdge()", "Update an edge with a new connection") ]),
    ("node",
      [ ("applyNodeChanges()", "Apply node changes to nodes array") ]),
    ("edgeChanges",
      [ ("applyEdgeChanges()", "Apply edge changes to edges array") ]),
    ("path",
      [ ("getBezierPath()", "Calculate bezier curve path"),
        ("getSimpleBezierPath()", "Calculate simple bezier path"),
        ("getSmoothStepPath()", "Calculate smooth step path with rounded corners"),
        ("getStraightPath()", "Calculate straight line path") ]),
    ("graph",
      [ ("getConnectedEdges()", "Get all edges connected to nodes"),
        ("getIncomers()", "Get nodes with edges pointing to target"),
        ("getOutgoers()", "Get nodes that source points to") ]),
    ("layout",
      [ ("getNodesBounds()", "Calculate bounding box for nodes"),
        ("getViewportForBounds()", "Calculate viewport to fit bounds") ]),
    ("validation",
      [ ("isNode()", "Type guard for Node"),
        ("isEdge()", "Type guard for Edge") ]) ]

/-- `getComponentsList(category?)`: with a truthy category, either the single
matching section or the category-not-found payload; otherwise all sections.
A truthy non-string category throws at `category.toLowerCase()`. -/
def getComponentsList (category : Option JValue) : Except String ToolResult :=
  if (category.map JValue.truthy).getD false then
    match category with
    | some (.str c) =>
        let normalizedCategory := jsToLower c
        match lookupTable componentCategories normalizedCategory with
        | some comps =>
            .ok (mkText (renderCategoryList "# React Flow Components\n\n" "Components"
              "\n---\n\nUse `get_react_flow_component` to get detailed information about a specific component.\n"
              [(normalizedCategory, comps)]))
        | none =>
            .ok (mkText ("Category \"" ++ c ++
              "\" not found. Available categories: core, helper, node, edge"))
    | _ => .error "TypeError: category.toLowerCase is not a function"
  else
    .ok (mkText (renderCategoryList "# React Flow Components\n\n" "Components"
      "\n---\n\nUse `get_react_flow_component` to get detailed information about a specific component.\n"
      componentCategories))

/-- `getHooksList(category?)` (same shape as `getComponentsList`). -/
def getHooksList (category : Option JValue) : Except String ToolResult :=
  if (category.map JValue.truthy).getD false then
    match category with
    | some (.str c) =>
        let normalizedCategory := jsToLower c
        match lookupTable hookCategories normalizedCategory with
        | some hks =>
            .ok (mkText (renderCategoryList "# React Flow Hooks\n\n" "Hooks"
              "\n---\n\nUse `get_react_flow_hook` to get detailed information about a specific hook.\n"
              [(normalizedCategory, hks)]))
        | none =>
            .ok (mkText ("Category \"" ++ c ++
              "\" not found. Available categories: state, viewport, connection, selection, store, utility"))
    | _ => .error "TypeError: category.toLowerCase is not a function"
  else
    .ok (mkText (renderCategoryList "# React Flow Hooks\n\n" "Hooks"
      "\n---\n\nUse `get_react_flow_hook` to get detailed information about a specific hook.\n"
      hookCategories))

/-- `getTypesList(category?)` (same shape as `getComponentsList`). -/
def getTypesList (category : Option JValue) : Except String ToolResult :=
  if (category.map JValue.truthy).getD false then
    match category with
    | some (.str c) =>
        let normalizedCategory := jsToLower c
        match lookupTable typeCategories normalizedCategory with
        | some tps =>
            .ok (mkText (renderCategoryList "# React Flow Types\n\n" "Types"
              "\n---\n\nUse `get_react_flow_type` to get detailed information about a specific type.\n"
              [(normalizedCategory, tps)]))
        | none =>
            .ok (mkText ("Category \"" ++ c ++
              "\" not found. Available categories: core, geometry, change, enum, configuration, callback"))
    | _ => .error "TypeError: category.toLowerCase is not a function"
  else
    .ok (mkText (renderCategoryList "# React Flow Types\n\n" "Types"
      "\n---\n\nUse `get_react_flow_type` to get detailed information about a specific type.\n"
      typeCategories))

/-- `getUtilitiesList()`: no filter, always every section. -/
def getUtilitiesList : ToolResult :=
  mkText (renderCategoryList "# React Flow Utilities\n\n" "Utilities"
    "\n---\n\nUse `get_react_flow_utility` to get detailed information about a specific utility.\n"
    utilityCategories)

/-- `handleListComponents`: cache key
`react-flow-components-list-${category || 'all'}`, TTL 60 minutes. -/
def handleListComponents (p : Params) : Work := fun s =>
  let v := getField p "category"
  let truthy := (v.map JValue.truthy).getD false
  let s := s.enter "list_react_flow_components"
    ("Listing React Flow components" ++ (if truthy then " in category: " ++ jsShow v else ""))
  let cacheKey := "react-flow-components-list-" ++ (if truthy then jsShow v else "all")
  match s.cache.get s.now cacheKey with
  | some cached => (.ok cached, s)
  | none =>
      match getComponentsList v with
      | .ok result =>
          (.ok result, { s with cache := s.cache.set s.now cacheKey result (60 * 60 * 1000) })
      | .error e => (.error (.handler e), s)

/-- `handleListHooks`: cache key `react-flow-hooks-list-${category || 'all'}`,
TTL 60 minutes. -/
def handleListHooks (p : Params) : Work := fun s =>
  let v := getField p "category"
  let truthy := (v.map JValue.truthy).getD false
  let s := s.enter "list_react_flow_hooks"
    ("Listing React Flow hooks" ++ (if truthy then " in category: " ++ jsShow v else ""))
  let cacheKey := "react-flow-hooks-list-" ++ (if truthy then jsShow v else "all")
  match s.cache.get s.now cacheKey with
  | some cached => (.ok cached, s)
  | none =>
      match getHooksList v with
      | .ok result =>
          (.ok result, { s with cache := s.cache.set s.now cacheKey result (60 * 60 * 1000) })
      | .error e => (.error (.handler e), s)

/-- `handleListTypes`: cache key `react-flow-types-list-${category || 'all'}`,
TTL 60 minutes. -/
def handleListTypes (p : Params) : Work := fun s =>
  let v := getField p "category"
  let truthy := (v.map JValue.truthy).getD false
  let s := s.enter "list_react_flow_types"
    ("Listing React Flow types" ++ (if truthy then " in category: " ++ jsShow v else ""))
  let cacheKey := "react-flow-types-list-" ++ (if truthy then jsShow v else "all")
  match s.cache.get s.now cacheKey with
  | some cached => (.ok cached, s)
  | none =>
      match getTypesList v with
      | .ok result =>
          (.ok result, { s with cache := s.cache.set s.now cacheKey result (60 * 60 * 1000) })
      | .error e => (.error (.handler e), s)

/-- `handleListUtilities`: takes no parameters; cache key
`react-flow-utilities-list`, TTL 60 minutes. -/
def handleListUtilities (_p : Params) : Work := fun s =>
  let s := s.enter "list_react_flow_utilities" "Listing React Flow utilities"
  let cacheKey := "react-flow-utilities-list"
  match s.cache.get s.now cacheKey with
  | some cached => (.ok cached, s)
  | none =>
      let result := getUtilitiesList
      (.ok result, { s with cache := s.cache.set s.now cacheKey result (60 * 60 * 1000) })

/-! ## Tool registry and the `call_tool` dispatch (`src/tools/index.ts`,
`src/handler.ts`) -/

/-- The `toolHandlers` registry of `src/tools/index.ts`, verbatim. -/
def toolHandlers : List (String × (Params → Work)) :=
  [ ("get_react_flow_component", handleGetComponent),
    ("list_react_flow_components", handleListComponents),
    ("get_react_flow_hook", handleGetHook),
    ("list_react_flow_hooks", handleListHooks),
    ("get_react_flow_type", handleGetType),
    ("list_react_flow_types", handleListTypes),
    ("get_react_flow_utility", handleGetUtility),
    ("list_react_flow_utilities", handleListUtilities),
    ("get_react_flow_example", handleGetExample),
    ("search_react_flow_examples", handleSearchExamples),
    ("get_react_flow_docs", handleGetDocs) ]

/-- The closure the `CallToolRequestSchema` handler passes to `handleRequest`:
check the tool name (`!name || typeof name !== 'string'` rejects absent,
empty-string and non-string names), look the handler up, and run it under a
second `circuitBreakers.external.execute`. `handler(params || {})` turns
absent or null `arguments` into the empty object; a non-object `arguments`
cannot occur in an MCP `call_tool` request and is modelled the same way. -/
def callToolWork (validatedParams : Params) : Work := fun s =>
  match getField validatedParams "name" with
  | some (.str n) =>
      if n = "" then (.error (.handler "Tool name is required"), s)
      else
        match lookupTable toolHandlers n with
        | none => (.error (.handler ("Tool not found: " ++ n)), s)
        | some handler =>
            let args : Params :=
              match getField validatedParams "arguments" with
              | some (.obj o) => o
              | _ => []
            s.breakerExecute (handler args)
  | _ => (.error (.handler "Tool name is required"), s)

/-- The full `call_tool` pipeline: the `CallToolRequestSchema` handler calls
`handleRequest('call_tool', request.params, closure)`. -/
def dispatchCallTool (params : Option Params) (s : Sys) :
    Except PErr ToolResult × Sys :=
  handleRequest "call_tool" params callToolWork s

/-! ## Helper lemmas -/

/-- A key that appears in none of a table's entries looks up to nothing. -/
theorem lookupTable_eq_none_of_not_mem {α : Type} (t : List (String × α)) (k : String)
    (h : k ∉ t.map Prod.fst) : lookupTable t k = none := by
  induction t with
  | nil => rfl
  | cons e rest ih =>
      simp only [List.map_cons, List.mem_cons, not_or] at h
      unfold lookupTable
      rw [if_neg (fun hh => h.1 hh.symm)]
      exact ih h.2

/-! ## C5 — cache TTL behaviour -/

/-- C5: for every key `k`, value `v` and positive `ttl`, `set(k, v, ttl)`
followed immediately by `get(k)` returns `v`; once time reaches or passes
`t + ttl` the entry is expired and `get(k)` is absent; and `get` on a key
that was never set is absent (`get` is a pure function of the cache, so it
has no side effect on a miss by construction). -/
theorem cache_ttl_spec {α : Type} (c : Cache α) (k : String) (v : α) (ttl t : Nat)
    (httl : 0 < ttl) :
    ((c.set t k v ttl).get t k = some v) ∧
    (∀ t', t + ttl ≤ t' → (c.set t k v ttl).get t' k = none) ∧
    (∀ (c' : Cache α) (k' : String), k' ∉ c'.keys → ∀ t'', c'.get t'' k' = none) := by
  refine ⟨?_, ?_, ?_⟩
  · have hlt : t < t + ttl := by omega
    simp [Cache.get, Cache.set, lookupTable, hlt]
  · intro t' ht'
    have hlt : ¬ t' < t + ttl := by omega
    simp [Cache.get, Cache.set, lookupTable, hlt]
  · intro c' k' hk t''
    unfold Cache.get
    rw [lookupTable_eq_none_of_not_mem c'.entries k' hk]

/-- Witness for C5 at concrete inputs. -/
theorem cache_ttl_spec_witness :
    ((Cache.set (⟨[]⟩ : Cache Nat) 100 "k" 7 50).get 100 "k" = some 7) ∧
    ((Cache.set (⟨[]⟩ : Cache Nat) 100 "k" 7 50).get 151 "k" = none) ∧
    ((⟨[("other", 1, 10)]⟩ : Cache Nat).get 0 "fresh" = none) := by
  have h := cache_ttl_spec (⟨[]⟩ : Cache Nat) "k" 7 50 100 (by decide)
  exact ⟨h.1, h.2.1 151 (by decide), h.2.2 ⟨[("other", 1, 10)]⟩ "fresh" (by decide) 0⟩

/-! ## C6 — unknown operation names pass validation through -/

/-- C6: an operation name with no entry in `methodSchemas` does not fail:
`validateAndSanitizeParams` logs the warning and returns the raw parameters
unchanged (the empty object when the parameters are absent). -/
theorem validation_unknown_method_passthrough (m : String) (p : Option Params)
    (h : lookupTable methodSchemas m = none) :
    validateAndSanitizeParams m p =
      (.ok (p.getD []), ["No validation schema found for method: " ++ m]) := by
  unfold validateAndSanitizeParams
  rw [h]

/-- Witness for C6 at a concrete unknown method, with and without params. -/
theorem validation_unknown_method_passthrough_witness :
    (validateAndSanitizeParams "initialize_session" (some [("x", JValue.num 3)]) =
      (.ok [("x", JValue.num 3)],
       ["No validation schema found for method: initialize_session"])) ∧
    (validateAndSanitizeParams "initialize_session" none =
      (.ok [], ["No validation schema found for method: initialize_session"])) :=
  ⟨validation_unknown_method_passthrough "initialize_session"
      (some [("x", JValue.num 3)]) (by rfl),
   validation_unknown_method_passthrough "initialize_session" none (by rfl)⟩

/-! ## C4 — circuit breaker state machine -/

/-- A freshly constructed breaker: `closed`, no failures. -/
def freshBreaker (n t : Nat) : CircuitBreaker :=
  { failureThreshold := n, resetTimeoutMs := t }

/-- Below the threshold, consecutive failures only count up: after
`k < N` failing invocations the breaker is still `closed` with
`consecutiveFailures = k`. -/
theorem afterFailures_below_threshold (n T t : Nat) (k : Nat) (hk : k < n) :
    (freshBreaker n T).afterFailures t k =
      { freshBreaker n T with consecutiveFailures := k } := by
  induction k with
  | zero => rfl
  | succ j ih =>
      have hj : j < n := Nat.lt_of_succ_lt hk
      unfold CircuitBreaker.afterFailures
      rw [ih hj]
      unfold CircuitBreaker.execute CircuitBreaker.admit CircuitBreaker.onFailure
      have hlt : ¬ n ≤ j + 1 := by omega
      simp [freshBreaker, hlt]

/-- C4: the closed/open/half-open contract. With `failureThreshold = N ≥ 1`:
after `N` consecutive failing invocations the breaker is `open` with
`consecutiveFailures = N` and `lastFailureTime` recorded; while the cooldown
`resetTimeoutMs` has not elapsed, any invocation is rejected with
`CircuitOpenError` without invoking the work and without changing the
breaker. And for any `open` breaker whose cooldown has elapsed, the next
invocation is allowed through as the half-open trial: on success the breaker
is `closed` with `consecutiveFailures = 0`, on failure it returns to `open`
with `lastFailureTime` updated. -/
theorem circuit_breaker_state_machine (n T t : Nat) (hn : 1 ≤ n) :
    (((freshBreaker n T).afterFailures t n).state = .opened ∧
     ((freshBreaker n T).afterFailures t n).consecutiveFailures = n ∧
     ((freshBreaker n T).afterFailures t n).lastFailureTime = some t) ∧
    (∀ (t' : Nat) (ε α : Type) (work : Except ε α), t' - t < T →
       ((freshBreaker n T).afterFailures t n).execute t' work =
         (.circuitOpen, (freshBreaker n T).afterFailures t n, false)) ∧
    (∀ (cb : CircuitBreaker) (tf t' : Nat), cb.state = .opened →
       cb.lastFailureTime = some tf → cb.resetTimeoutMs ≤ t' - tf →
       (∀ (ε α : Type) (a : α),
          cb.execute t' (Except.ok a : Except ε α) =
            (.ok a, { cb with state := .closed, consecutiveFailures := 0 }, true)) ∧
       (∀ (ε α : Type) (e : ε),
          cb.execute t' (Except.error e : Except ε α) =
            (.failed e, { cb with state := .opened, lastFailureTime := some t' }, true))) := by
  have hopen : (freshBreaker n T).afterFailures t n =
      (⟨n, T, .opened, n, some t⟩ : CircuitBreaker) := by
    obtain ⟨m, rfl⟩ : ∃ m, n = m + 1 := ⟨n - 1, by omega⟩
    unfold CircuitBreaker.afterFailures
    rw [afterFailures_below_threshold _ T t m (by omega)]
    unfold CircuitBreaker.execute CircuitBreaker.admit CircuitBreaker.onFailure
    have hle : m + 1 ≤ m + 1 := le_refl _
    simp [freshBreaker, hle]
  refine ⟨by rw [hopen]; exact ⟨rfl, rfl, rfl⟩, ?_, ?_⟩
  · intro t' ε α work ht'
    rw [hopen]
    unfold CircuitBreaker.execute CircuitBreaker.admit
    have hlt : ¬ T ≤ t' - t := by omega
    simp [freshBreaker, hlt]
  · intro cb tf t' hstate hlast helapsed
    have hadm : cb.admit t' = (true, { cb with state := .halfOpen }) := by
      unfold CircuitBreaker.admit
      rw [hstate, hlast]
      simp [helapsed]
    constructor
    · intro ε α a
      unfold CircuitBreaker.execute
      rw [hadm]
      rfl
    · intro ε α e
      unfold CircuitBreaker.execute
      rw [hadm]
      unfold CircuitBreaker.onFailure
      rfl

/-- Witness for C4 with `N = 2`, `T = 5`, failures at time 0: after two
failures the breaker is open; at time 3 a call is rejected without running
the work; at time 5 the half-open trial runs and, succeeding, closes the
breaker. -/
theorem circuit_breaker_state_machine_witness :
    (((freshBreaker 2 5).afterFailures 0 2).state = .opened) ∧
    (((freshBreaker 2 5).afterFailures 0 2).execute 3 (Except.ok 42 : Except Unit Nat) =
      (.circuitOpen, (freshBreaker 2 5).afterFailures 0 2, false)) ∧
    (((freshBreaker 2 5).afterFailures 0 2).execute 5 (Except.ok 42 : Except Unit Nat) =
      (.ok 42, { (freshBreaker 2 5).afterFailures 0 2 with
                  state := .closed, consecutiveFailures := 0 }, true)) := by
  have h := circuit_breaker_state_machine 2 5 0 (by decide)
  refine ⟨h.1.1, h.2.1 3 Unit Nat (Except.ok 42) (by decide), ?_⟩
  exact (h.2.2 ((freshBreaker 2 5).afterFailures 0 2) 0 5 h.1.1 h.1.2.2 (by decide)).1
    Unit Nat 42

/-! ## C9 — component lookup is invariant under decoration -/

/-- C9: `getComponentInfo` depends on its argument only through
`componentName.toLowerCase().replace(/[<>\/\s]/g, '')` whenever the
normalized form names a known component: two inputs with the same normalized
form, known to the table, yield identical payloads. -/
theorem component_lookup_decoration_invariant (a b : String)
    (hn : normalizeComponentName a = normalizeComponentName b)
    (hk : (lookupTable components (normalizeComponentName a)).isSome = true) :
    getComponentInfo a = getComponentInfo b := by
  simp only [getComponentInfo]
  rw [← hn]
  cases hca : lookupTable components (normalizeComponentName a) with
  | none => rw [hca] at hk; simp at hk
  | some c => rfl

/-- Witness for C9: `"ReactFlow"`, `"reactflow"` and `"<ReactFlow />"` have
the same normalized form and yield the same payload. -/
theorem component_lookup_decoration_invariant_witness :
    getComponentInfo "ReactFlow" = getComponentInfo "<ReactFlow />" ∧
    getComponentInfo "reactflow" = getComponentInfo "ReactFlow" :=
  ⟨component_lookup_decoration_invariant "ReactFlow" "<ReactFlow />" (by rfl) (by rfl),
   component_lookup_decoration_invariant "reactflow" "ReactFlow" (by rfl) (by rfl)⟩

/-! ## C2 — "not found" is a successful listing, never an error -/

/-- C2: every lookup with an unknown name, category or topic returns the
uniform successful payload `{ content: [ { type: "text", text } ] }` whose
text lists the valid alternatives. The `get*Info` lookups are total functions
into that payload shape (no error channel exists for them), and the
category-filtered listings return `.ok` — their `.error` channel carries only
the JS `TypeError` of a non-string category, never a not-found condition. -/
theorem not_found_returns_successful_listing
    (cn hn tn un en dn cc hc tc q : String)
    (h1 : lookupTable components (normalizeComponentName cn) = none)
    (h2 : lookupTable hooks (normalizeParenName hn) = none)
    (h3 : lookupTable typesTable (normalizeTypeName tn) = none)
    (h4 : lookupTable utilities (normalizeParenName un) = none)
    (h5 : lookupTable examples (normalizeDashed en) = none)
    (h6 : lookupTable docs (normalizeDashed dn) = none)
    (h7 : lookupTable componentCategories (jsToLower cc) = none) (hcc : cc ≠ "")
    (h8 : lookupTable hookCategories (jsToLower hc) = none) (hhc : hc ≠ "")
    (h9 : lookupTable typeCategories (jsToLower tc) = none) (htc : tc ≠ "")
    (h10 : searchMatches q = []) :
    (getComponentInfo cn =
      mkText ("Component \"" ++ cn ++ "\" not found. Available components: " ++
        String.intercalate ", " (components.map (fun e => e.2.name)))) ∧
    (getHookInfo hn =
      mkText ("Hook \"" ++ hn ++ "\" not found. Available hooks: " ++
        String.intercalate ", " (hooks.map (fun e => e.2.name)))) ∧
    (getTypeInfo tn =
      mkText ("Type \"" ++ tn ++ "\" not found. Available types: " ++
        String.intercalate ", " (typesTable.map (fun e => e.2.name)))) ∧
    (getUtilityInfo un =
      mkText ("Utility \"" ++ un ++ "\" not found. Available utilities: " ++
        String.intercalate ", " (utilities.map (fun e => e.2.name)))) ∧
    (getExampleInfo en =
      mkText ("Example \"" ++ en ++ "\" not found. Available examples:\n\n" ++
        String.intercalate "\n"
          (examples.map (fun e => "- **" ++ e.1 ++ "**: " ++ e.2.description)))) ∧
    (getDocsInfo dn =
      mkText ("Documentation topic \"" ++ dn ++ "\" not found. Available topics:\n\n" ++
        String.intercalate "\n"
          (docs.map (fun d => "- **" ++ d.1 ++ "**: " ++ d.2.title)) ++
        "\n\nUse `get_react_flow_docs` with one of these topic names.")) ∧
    (getComponentsList (some (.str cc)) =
      .ok (mkText ("Category \"" ++ cc ++
        "\" not found. Available categories: core, helper, node, edge"))) ∧
    (getHooksList (some (.str hc)) =
      .ok (mkText ("Category \"" ++ hc ++
        "\" not found. Available categories: state, viewport, connection, selection, store, utility"))) ∧
    (getTypesList (some (.str tc)) =
      .ok (mkText ("Category \"" ++ tc ++
        "\" not found. Available categories: core, geometry, change, enum, configuration, callback"))) ∧
    (searchExamples q = mkText (noExamplesText q)) := by
  refine ⟨?_, ?_, ?_, ?_, ?_, ?_, ?_, ?_, ?_, ?_⟩
  · simp only [getComponentInfo, h1]
  · simp only [getHookInfo, h2]
  · simp only [getTypeInfo, h3]
  · simp only [getUtilityInfo, h4]
  · simp only [getExampleInfo, h5]
  · simp only [getDocsInfo, h6]
  · have htr : (JValue.str cc).truthy = true := by
      simp only [JValue.truthy, Bool.not_eq_true']
      exact Bool.eq_false_iff.mpr (fun h => hcc ((String.isEmpty_iff _).mp h))
    simp [getComponentsList, htr, h7]
  · have htr : (JValue.str hc).truthy = true := by
      simp only [JValue.truthy, Bool.not_eq_true']
      exact Bool.eq_false_iff.mpr (fun h => hhc ((String.isEmpty_iff _).mp h))
    simp [getHooksList, htr, h8]
  · have htr : (JValue.str tc).truthy = true := by
      simp only [JValue.truthy, Bool.not_eq_true']
      exact Bool.eq_false_iff.mpr (fun h => htc ((String.isEmpty_iff _).mp h))
    simp [getTypesList, htr, h9]
  · simp [searchExamples, h10]

/-- Witness for C2 at concrete unknown names, categories and topics
(including the spec's end-to-end scenario input `"unknown-topic-xyz"`). -/
theorem not_found_returns_successful_listing_witness :
    getDocsInfo "unknown-topic-xyz" =
      mkText ("Documentation topic \"unknown-topic-xyz\" not found. Available topics:\n\n" ++
        String.intercalate "\n"
          (docs.map (fun d => "- **" ++ d.1 ++ "**: " ++ d.2.title)) ++
        "\n\nUse `get_react_flow_docs` with one of these topic names.") :=
  (not_found_returns_successful_listing "Bogus" "useBogus" "BogusType" "bogusUtil"
    "bogus-example" "unknown-topic-xyz" "bogus" "bogus" "bogus" "zzzqqq"
    (by rfl) (by rfl) (by rfl) (by rfl) (by rfl) (by rfl)
    (by rfl) (by decide) (by rfl) (by decide) (by rfl) (by decide)
    (by decide)).2.2.2.2.2.1

/-! ## C7 — known operation names reject exactly the claimed violations -/

/-- The claim's characterization of a rejected field: a required field that
is missing, a required string field that is empty or longer than 1000
characters, or a field of the wrong primitive type. -/
def fieldViolation (fs : FieldSchema) (v : Option JValue) : Bool :=
  match fs, v with
  | .requiredString, none => true
  | .requiredString, some (.str s) => s.length == 0 || decide (1000 < s.length)
  | .requiredString, some _ => true
  | .optionalString, none => false
  | .optionalString, some (.str _) => false
  | .optionalString, some _ => true
  | .anyOptional, _ => false

/-- A field passes its zod check exactly when it has none of the claimed
violations. -/
theorem checkField_eq_none_iff (f : String) (fs : FieldSchema) (v : Option JValue) :
    checkField f fs v = none ↔ fieldViolation fs v = false := by
  cases fs <;> rcases v with _ | (s | n | b | _ | o) <;>
    (simp [checkField, fieldViolation]; try (split_ifs <;> simp_all))

/-- C7: for an operation name with a rule in `methodSchemas`,
`validateAndSanitizeParams` throws exactly when some declared field is
missing (required), empty or over 1000 characters (required string), or of
the wrong primitive type; the thrown message is the field-qualified
`Validation failed for <method>: <field>: <issue>, ...` listing every
violating field; and otherwise it returns the normalized (schema-stripped)
parameters. -/
theorem validation_known_method_rejects_exactly (m : String)
    (schema : List (String × FieldSchema)) (p : Params)
    (h : lookupTable methodSchemas m = some schema) :
    ((∃ msg, (validateAndSanitizeParams m (some p)).1 = .error msg) ↔
       ∃ fp ∈ schema, fieldViolation fp.2 (getField p fp.1) = true) ∧
    (∀ msg, (validateAndSanitizeParams m (some p)).1 = .error msg →
       msg = "Validation failed for " ++ m ++ ": " ++
         String.intercalate ", "
           ((schema.filterMap (fun fp => checkField fp.1 fp.2 (getField p fp.1))).map
             (fun e => e.1 ++ ": " ++ e.2))) ∧
    ((∀ fp ∈ schema, fieldViolation fp.2 (getField p fp.1) = false) →
       (validateAndSanitizeParams m (some p)).1 =
         .ok (schema.filterMap (fun fp => (getField p fp.1).map (fun v => (fp.1, v))))) := by
  have hval : validateAndSanitizeParams m (some p) =
      (match zodParse schema p with
       | .ok v => (Except.ok v, [])
       | .error errs =>
           (.error ("Validation failed for " ++ m ++ ": " ++
             String.intercalate ", " (errs.map (fun e => e.1 ++ ": " ++ e.2))), [])) := by
    unfold validateAndSanitizeParams
    rw [h]
    rfl
  by_cases he :
      (schema.filterMap (fun fp => checkField fp.1 fp.2 (getField p fp.1))).isEmpty
  · have hz : zodParse schema p =
        .ok (schema.filterMap (fun fp => (getField p fp.1).map (fun v => (fp.1, v)))) := by
      unfold zodParse
      rw [if_pos he]
    rw [hval, hz]
    have hnone : ∀ fp ∈ schema, checkField fp.1 fp.2 (getField p fp.1) = none := by
      rw [List.isEmpty_iff] at he
      exact fun fp hfp => List.filterMap_eq_nil_iff.mp he fp hfp
    refine ⟨?_, ?_, ?_⟩
    · constructor
      · rintro ⟨msg, hmsg⟩
        simp at hmsg
      · rintro ⟨fp, hfp, hviol⟩
        have hfalse := (checkField_eq_none_iff fp.1 fp.2 (getField p fp.1)).mp (hnone fp hfp)
        rw [hfalse] at hviol
        exact absurd hviol (by simp)
    · intro msg hmsg
      simp at hmsg
    · intro _
      rfl
  · have hz : zodParse schema p =
        .error (schema.filterMap (fun fp => checkField fp.1 fp.2 (getField p fp.1))) := by
      unfold zodParse
      rw [if_neg he]
    rw [hval, hz]
    refine ⟨?_, ?_, ?_⟩
    · refine iff_of_true ⟨_, rfl⟩ ?_
      by_contra hno
      push_neg at hno
      apply he
      rw [List.isEmpty_iff]
      refine List.filterMap_eq_nil_iff.mpr fun fp hfp => ?_
      rw [checkField_eq_none_iff fp.1]
      have := hno fp hfp
      revert this
      cases fieldViolation fp.2 (getField p fp.1) <;> simp
    · intro msg hmsg
      simp only [Except.error.injEq] at hmsg
      exact hmsg.symm
    · intro hall
      exfalso
      apply he
      rw [List.isEmpty_iff]
      exact List.filterMap_eq_nil_iff.mpr fun fp hfp =>
        (checkField_eq_none_iff fp.1 fp.2 (getField p fp.1)).mpr (hall fp hfp)

/-- Witness for C7: `get_react_flow_component` rejects an empty
`componentName` and accepts `"Handle"`. -/
theorem validation_known_method_rejects_exactly_witness :
    (∃ msg, (validateAndSanitizeParams "get_react_flow_component"
        (some [("componentName", JValue.str "")])).1 = .error msg) ∧
    ((validateAndSanitizeParams "get_react_flow_component"
        (some [("componentName", JValue.str "Handle")])).1 =
      .ok [("componentName", JValue.str "Handle")]) := by
  have h1 := validation_known_method_rejects_exactly "get_react_flow_component"
    [("componentName", .requiredString)] [("componentName", JValue.str "")] (by rfl)
  have h2 := validation_known_method_rejects_exactly "get_react_flow_component"
    [("componentName", .requiredString)] [("componentName", JValue.str "Handle")] (by rfl)
  exact ⟨h1.1.mpr ⟨("componentName", .requiredString), by decide, by decide⟩,
         h2.2.2 (by decide)⟩

/-! ## C3 — dispatcher ordering, logging and rethrowing -/

/-- When validation throws, it logged no warning (the warning is only logged
on the unknown-method path, which never throws). -/
theorem validate_error_no_warning (m : String) (p : Option Params) (msg : String)
    (h : (validateAndSanitizeParams m p).1 = .error msg) :
    (validateAndSanitizeParams m p).2 = [] := by
  unfold validateAndSanitizeParams at *
  cases ht : lookupTable methodSchemas m with
  | none => rw [ht] at h; simp at h
  | some schema =>
      cases hz : zodParse schema (p.getD []) with
      | ok v => simp [hz]
      | error errs => simp [hz]

/-- C3: `handleRequest` validates first; if validation throws, the result is
the validation error for any handler (the breaker and the handler are never
invoked — the final state differs from the initial one only by the single
`Error in <method>` log line, so breaker state and trace are untouched).
When validation succeeds, the breaker-guarded handler outcome is returned
unchanged: a success adds nothing to the log, and any error is rethrown
as-is after exactly one `Error in <method>` log line is appended at the
dispatcher boundary. -/
theorem dispatcher_error_contract (m : String) (p : Option Params)
    (h : Params → Work) (s : Sys) :
    (∀ msg, (validateAndSanitizeParams m p).1 = .error msg →
       ∀ h' : Params → Work,
         handleRequest m p h' s =
           (.error (.validation msg),
            { s with log := s.log ++ [LogEntry.err ("Error in " ++ m)] })) ∧
    (∀ v, (validateAndSanitizeParams m p).1 = .ok v →
       (∀ r s2,
          (s.addWarnings (validateAndSanitizeParams m p).2).breakerExecute (h v) =
            (.ok r, s2) →
          handleRequest m p h s = (.ok r, s2)) ∧
       (∀ e s2,
          (s.addWarnings (validateAndSanitizeParams m p).2).breakerExecute (h v) =
            (.error e, s2) →
          handleRequest m p h s =
            (.error e, { s2 with log := s2.log ++ [LogEntry.err ("Error in " ++ m)] }))) := by
  constructor
  · intro msg hmsg h'
    have hw : (validateAndSanitizeParams m p).2 = [] :=
      validate_error_no_warning m p msg hmsg
    simp only [handleRequest, hmsg, hw]
    simp [Sys.addWarnings, Sys.logErr]
  · intro v hv
    constructor
    · intro r s2 hbe
      simp only [handleRequest, hv, hbe]
    · intro e s2 hbe
      simp only [handleRequest, hv, hbe]
      simp [Sys.logErr]

/-- Witness for C3, exercising all three branches at concrete inputs: a
validation failure (empty `call_tool` name), a handler error, and a handler
success, each against an explicitly given state. -/
theorem dispatcher_error_contract_witness :
    (handleRequest "call_tool" (some [("name", JValue.str "")])
        (fun _ => fun s => (.ok (mkText "unused"), s))
        { cb := { failureThreshold := 3, resetTimeoutMs := 60000 },
          cache := ⟨[]⟩, now := 0 } =
      (.error (.validation
          "Validation failed for call_tool: name: String must contain at least 1 character(s)"),
       { cb := { failureThreshold := 3, resetTimeoutMs := 60000 },
         cache := ⟨[]⟩, now := 0,
         log := [LogEntry.err "Error in call_tool"] })) ∧
    (handleRequest "list_tools" (some [])
        (fun _ => fun s => (.error (.handler "boom"), s))
        { cb := { failureThreshold := 3, resetTimeoutMs := 60000 },
          cache := ⟨[]⟩, now := 0 } =
      (.error (.handler "boom"),
       { cb := { failureThreshold := 3, resetTimeoutMs := 60000,
                 consecutiveFailures := 1 },
         cache := ⟨[]⟩, now := 0,
         log := [LogEntry.err "Error in list_tools"],
         trace := [Event.breakerEnter] })) ∧
    (handleRequest "list_tools" (some [])
        (fun _ => fun s => (.ok (mkText "tools"), s))
        { cb := { failureThreshold := 3, resetTimeoutMs := 60000 },
          cache := ⟨[]⟩, now := 0 } =
      (.ok (mkText "tools"),
       { cb := { failureThreshold := 3, resetTimeoutMs := 60000 },
         cache := ⟨[]⟩, now := 0, log := [],
         trace := [Event.breakerEnter] })) := by
  refine ⟨?_, ?_, ?_⟩
  · exact (dispatcher_error_contract "call_tool" (some [("name", JValue.str "")])
      (fun _ => fun s => (.ok (mkText "unused"), s))
      { cb := { failureThreshold := 3, resetTimeoutMs := 60000 },
        cache := ⟨[]⟩, now := 0 }).1
      "Validation failed for call_tool: name: String must contain at least 1 character(s)"
      (by rfl) _
  · exact ((dispatcher_error_contract "list_tools" (some [])
      (fun _ => fun s => (.error (.handler "boom"), s))
      { cb := { failureThreshold := 3, resetTimeoutMs := 60000 },
        cache := ⟨[]⟩, now := 0 }).2 [] (by rfl)).2 (.handler "boom")
      { cb := { failureThreshold := 3, resetTimeoutMs := 60000,
                consecutiveFailures := 1 },
        cache := ⟨[]⟩, now := 0, log := [], trace := [Event.breakerEnter] }
      (by rfl)
  · exact ((dispatcher_error_contract "list_tools" (some [])
      (fun _ => fun s => (.ok (mkText "tools"), s))
      { cb := { failureThreshold := 3, resetTimeoutMs := 60000 },
        cache := ⟨[]⟩, now := 0 }).2 [] (by rfl)).1 (mkText "tools")
      { cb := { failureThreshold := 3, resetTimeoutMs := 60000 },
        cache := ⟨[]⟩, now := 0, log := [], trace := [Event.breakerEnter] }
      (by rfl)

/-! ## C8 — example search is all-terms literal substring matching -/

set_option maxRecDepth 100000

/-- C8: an example matches exactly when every whitespace-separated lowercased
query term is a literal substring of the space-joined concatenation of its
lowercased name, description and tags; and concretely, searching
`"drag drop"` yields exactly the `drag-and-drop` example — its id appears in
the rendered payload, and every example lacking either term is excluded. -/
theorem search_all_terms_substring (q : String) :
    (∀ e, e ∈ searchMatches q ↔
       e ∈ searchCatalog ∧
         ∀ t ∈ queryTerms q, containsSub (searchableText e) t = true) ∧
    ((searchMatches "drag drop").map (fun e => e.id) = ["drag-and-drop"]) ∧
    (searchExamples "drag drop" =
      mkText (renderSearchResults "drag drop" (searchMatches "drag drop"))) ∧
    (containsSub
      (renderSearchResults "drag drop" (searchMatches "drag drop")) "drag-and-drop" = true) ∧
    (∀ e ∈ searchCatalog,
       ¬(containsSub (searchableText e) "drag" = true ∧
         containsSub (searchableText e) "drop" = true) →
       e ∉ searchMatches "drag drop") := by
  refine ⟨?_, by decide, by decide, by decide, ?_⟩
  · intro e
    unfold searchMatches exampleMatches
    rw [List.mem_filter]
    simp [List.all_eq_true]
  · intro e _ hterms hmem
    unfold searchMatches exampleMatches at hmem
    rw [List.mem_filter] at hmem
    have hall := hmem.2
    rw [List.all_eq_true] at hall
    exact hterms ⟨hall "drag" (by decide), hall "drop" (by decide)⟩

/-- Witness for C8 at the concrete query of the spec's scenario 3. -/
theorem search_all_terms_substring_witness :
    (searchMatches "drag drop").map (fun e => e.id) = ["drag-and-drop"] :=
  (search_all_terms_substring "drag drop").2.1

/-! ## C1 — the dispatched pipeline does not validate tool arguments -/

/-- A fresh process state: breaker closed with no failures, cache empty.
(The real breaker configuration constants are not fixed by the available
sources; the dispatched scenarios below do not depend on them.) -/
def startState : Sys :=
  { cb := { failureThreshold := 5, resetTimeoutMs := 60000 }, cache := ⟨[]⟩, now := 0 }

/-- C1 (demonstrating the code bug): a dispatched `call_tool` for
`get_react_flow_component` with `componentName = ""` is NOT rejected by
validation — the `call_tool` schema checks only `name` and leaves
`arguments` as `z.any().optional()`, the per-tool schema in the same table
is never consulted on this path, and the handler runs and returns the
successful not-found payload. The per-tool schema would have rejected the
input (third conjunct), and `componentName = "Handle"` succeeds and reaches
the handler as the claim says. -/
theorem call_tool_empty_component_name_not_rejected :
    ((dispatchCallTool
        (some [("name", JValue.str "get_react_flow_component"),
               ("arguments", JValue.obj [("componentName", JValue.str "")])])
        startState).1 = .ok (getComponentInfo "")) ∧
    ((dispatchCallTool
        (some [("name", JValue.str "get_react_flow_component"),
               ("arguments", JValue.obj [("componentName", JValue.str "")])])
        startState).2.trace =
      [Event.breakerEnter, Event.breakerEnter,
       Event.handlerRun "get_react_flow_component"]) ∧
    ((validateAndSanitizeParams "get_react_flow_component"
        (some [("componentName", JValue.str "")])).1 =
      .error "Validation failed for get_react_flow_component: componentName: String must contain at least 1 character(s)") ∧
    ((dispatchCallTool
        (some [("name", JValue.str "get_react_flow_component"),
               ("arguments", JValue.obj [("componentName", JValue.str "Handle")])])
        startState).1 = .ok (getComponentInfo "Handle")) ∧
    ((dispatchCallTool
        (some [("name", JValue.str "get_react_flow_component"),
               ("arguments", JValue.obj [("componentName", JValue.str "Handle")])])
        startState).2.trace =
      [Event.breakerEnter, Event.breakerEnter,
       Event.handlerRun "get_react_flow_component"]) ∧
    ((lookupTable components (normalizeComponentName "Handle")).isSome = true) ∧
    (getComponentInfo "" =
      mkText ("Component \"\" not found. Available components: " ++
        String.intercalate ", " (components.map (fun e => e.2.name)))) :=
  ⟨rfl, rfl, rfl, rfl, rfl, rfl, rfl⟩

/-! ## C10 — one dispatched tool call enters the shared breaker twice -/

/-- Every registered tool handler adds exactly its `handlerRun` event to the
trace (its opening `logInfo`), whatever its arguments, cache state or
outcome. One lemma per handler; the proofs case-split the handler's
branches. -/
theorem handleGetComponent_trace (p : Params) (s : Sys) :
    ((handleGetComponent p s).2).trace =
      s.trace ++ [Event.handlerRun "get_react_flow_component"] := by
  simp only [handleGetComponent, Sys.enter]
  split <;> first | rfl | (split <;> rfl)

theorem handleGetHook_trace (p : Params) (s : Sys) :
    ((handleGetHook p s).2).trace =
      s.trace ++ [Event.handlerRun "get_react_flow_hook"] := by
  simp only [handleGetHook, Sys.enter]
  split <;> first | rfl | (split <;> rfl)

theorem handleGetType_trace (p : Params) (s : Sys) :
    ((handleGetType p s).2).trace =
      s.trace ++ [Event.handlerRun "get_react_flow_type"] := by
  simp only [handleGetType, Sys.enter]
  split <;> first | rfl | (split <;> rfl)

theorem handleGetUtility_trace (p : Params) (s : Sys) :
    ((handleGetUtility p s).2).trace =
      s.trace ++ [Event.handlerRun "get_react_flow_utility"] := by
  simp only [handleGetUtility, Sys.enter]
  split <;> first | rfl | (split <;> rfl)

theorem handleGetExample_trace (p : Params) (s : Sys) :
    ((handleGetExample p s).2).trace =
      s.trace ++ [Event.handlerRun "get_react_flow_example"] := by
  simp only [handleGetExample, Sys.enter]
  split <;> first | rfl | (split <;> rfl)

theorem handleSearchExamples_trace (p : Params) (s : Sys) :
    ((handleSearchExamples p s).2).trace =
      s.trace ++ [Event.handlerRun "search_react_flow_examples"] := by
  simp only [handleSearchExamples, Sys.enter]
  split <;> first | rfl | (split <;> rfl)

theorem handleGetDocs_trace (p : Params) (s : Sys) :
    ((handleGetDocs p s).2).trace =
      s.trace ++ [Event.handlerRun "get_react_flow_docs"] := by
  simp only [handleGetDocs, Sys.enter]
  split <;> first | rfl | (split <;> rfl)

theorem handleListComponents_trace (p : Params) (s : Sys) :
    ((handleListComponents p s).2).trace =
      s.trace ++ [Event.handlerRun "list_react_flow_components"] := by
  simp only [handleListComponents, Sys.enter]
  split <;> first | rfl | (split <;> rfl)

theorem handleListHooks_trace (p : Params) (s : Sys) :
    ((handleListHooks p s).2).trace =
      s.trace ++ [Event.handlerRun "list_react_flow_hooks"] := by
  simp only [handleListHooks, Sys.enter]
  split <;> first | rfl | (split <;> rfl)

theorem handleListTypes_trace (p : Params) (s : Sys) :
    ((handleListTypes p s).2).trace =
      s.trace ++ [Event.handlerRun "list_react_flow_types"] := by
  simp only [handleListTypes, Sys.enter]
  split <;> first | rfl | (split <;> rfl)

theorem handleListUtilities_trace (p : Params) (s : Sys) :
    ((handleListUtilities p s).2).trace =
      s.trace ++ [Event.handlerRun "list_react_flow_utilities"] := by
  simp only [handleListUtilities, Sys.enter]
  split <;> rfl

/-- A successful table lookup exhibits the found pair as a member. -/
theorem lookupTable_mem {α : Type} (t : List (String × α)) (k : String) (v : α)
    (h : lookupTable t k = some v) : (k, v) ∈ t := by
  induction t with
  | nil => cases h
  | cons e rest ih =>
      unfold lookupTable at h
      split at h
      · next heq =>
          injection h with hh
          subst heq; subst hh
          exact List.mem_cons_self _ _
      · exact List.mem_cons_of_mem _ (ih h)

/-- A registered tool name is a nonempty, schema-passing string, and its
handler contributes exactly its `handlerRun` event to the trace. -/
theorem registry_handler_facts (n : String) (hf : Params → Work)
    (hlk : lookupTable toolHandlers n = some hf) :
    checkField "name" FieldSchema.requiredString (some (JValue.str n)) = none ∧
    n ≠ "" ∧
    ∀ p s', ((hf p s').2).trace = s'.trace ++ [Event.handlerRun n] := by
  have hmem : (n, hf) ∈ toolHandlers := lookupTable_mem _ _ _ hlk
  simp only [toolHandlers, List.mem_cons, List.not_mem_nil, or_false,
    Prod.mk.injEq] at hmem
  rcases hmem with h | h | h | h | h | h | h | h | h | h | h <;>
    obtain ⟨rfl, rfl⟩ := h
  · exact ⟨by decide, by decide, handleGetComponent_trace⟩
  · exact ⟨by decide, by decide, handleListComponents_trace⟩
  · exact ⟨by decide, by decide, handleGetHook_trace⟩
  · exact ⟨by decide, by decide, handleListHooks_trace⟩
  · exact ⟨by decide, by decide, handleGetType_trace⟩
  · exact ⟨by decide, by decide, handleListTypes_trace⟩
  · exact ⟨by decide, by decide, handleGetUtility_trace⟩
  · exact ⟨by decide, by decide, handleListUtilities_trace⟩
  · exact ⟨by decide, by decide, handleGetExample_trace⟩
  · exact ⟨by decide, by decide, handleSearchExamples_trace⟩
  · exact ⟨by decide, by decide, handleGetDocs_trace⟩

/-- A breaker execution from a closed breaker records its `breakerEnter`
event and otherwise leaves the trace to the work it admits. -/
theorem breakerExecute_trace_closed (s : Sys) (w : Work)
    (hclosed : s.cb.state = .closed) (Δ : List Event)
    (hw : ((w { s with trace := s.trace ++ [Event.breakerEnter] }).2).trace =
          (s.trace ++ [Event.breakerEnter]) ++ Δ) :
    ((s.breakerExecute w).2).trace = (s.trace ++ [Event.breakerEnter]) ++ Δ := by
  have hadm : s.cb.admit s.now = (true, s.cb) := by
    unfold CircuitBreaker.admit
    rw [hclosed]
  simp only [Sys.breakerExecute, hadm]
  rcases hw2 : w { s with trace := s.trace ++ [Event.breakerEnter] } with ⟨res, s2⟩
  rw [hw2] at hw
  cases res <;> simpa using hw

/-- The `call_tool` closure for a registered tool from a closed breaker:
one `breakerEnter` (the inner execution) followed by the handler run. -/
theorem callToolWork_trace (n : String) (hf : Params → Work) (args : Params)
    (hlk : lookupTable toolHandlers n = some hf) (s : Sys)
    (hclosed : s.cb.state = .closed) :
    ((callToolWork [("name", JValue.str n), ("arguments", JValue.obj args)] s).2).trace =
      s.trace ++ [Event.breakerEnter, Event.handlerRun n] := by
  obtain ⟨-, hne, hΔ⟩ := registry_handler_facts n hf hlk
  unfold callToolWork
  simp only [getField, if_pos, if_neg, String.reduceEq, reduceIte]
  rw [if_neg hne, hlk]
  have h := breakerExecute_trace_closed s (hf args) hclosed [Event.handlerRun n]
    (hΔ args { s with trace := s.trace ++ [Event.breakerEnter] })
  simpa using h

/-- With validation succeeding and logging no warning, the dispatcher's
trace is that of the breaker-guarded closure execution. -/
theorem handleRequest_trace_of_ok (m : String) (p : Option Params)
    (h : Params → Work) (s : Sys) (v : Params)
    (hv : validateAndSanitizeParams m p = (.ok v, [])) :
    (handleRequest m p h s).2.trace =
      (((s.addWarnings []).breakerExecute (h v)).2).trace := by
  simp only [handleRequest, hv]
  rcases hbe : (s.addWarnings []).breakerExecute (h v) with ⟨res, s2⟩
  cases res <;> simp [Sys.logErr]

/-- C10: a dispatched `call_tool` that reaches a registered tool handler
passes through `circuitBreakers.external.execute` twice, nested — the
dispatcher wraps the whole `call_tool` closure in the shared breaker, and
the closure wraps the tool handler in the same breaker again — so the trace
of one tool invocation records exactly two `breakerEnter` events before the
single handler run. -/
theorem call_tool_double_breaker_entry (n : String) (hf : Params → Work)
    (args : Params) (s : Sys)
    (hlk : lookupTable toolHandlers n = some hf)
    (hclosed : s.cb.state = .closed) :
    ((dispatchCallTool
        (some [("name", JValue.str n), ("arguments", JValue.obj args)]) s).2).trace =
      s.trace ++ [Event.breakerEnter, Event.breakerEnter, Event.handlerRun n] := by
  obtain ⟨hcheck, hne, hΔ⟩ := registry_handler_facts n hf hlk
  have hval : validateAndSanitizeParams "call_tool"
      (some [("name", JValue.str n), ("arguments", JValue.obj args)]) =
      (.ok [("name", JValue.str n), ("arguments", JValue.obj args)], []) := by
    unfold validateAndSanitizeParams
    rw [show lookupTable methodSchemas "call_tool" =
        some [("name", FieldSchema.requiredString), ("arguments", FieldSchema.anyOptional)]
      from rfl]
    unfold zodParse
    have hcheck2 : checkField "arguments" FieldSchema.anyOptional
        (some (JValue.obj args)) = none := rfl
    simp [getField, hcheck, hcheck2]
  have hreq := handleRequest_trace_of_ok "call_tool"
    (some [("name", JValue.str n), ("arguments", JValue.obj args)]) callToolWork s
    [("name", JValue.str n), ("arguments", JValue.obj args)] hval
  have houter := breakerExecute_trace_closed (s.addWarnings [])
    (callToolWork [("name", JValue.str n), ("arguments", JValue.obj args)])
    (by exact hclosed) [Event.breakerEnter, Event.handlerRun n]
    (callToolWork_trace n hf args hlk _ (by exact hclosed))
  unfold dispatchCallTool
  rw [hreq, houter]
  simp [Sys.addWarnings]

/-- Witness for C10 at a concrete dispatched tool call. -/
theorem call_tool_double_breaker_entry_witness :
    ((dispatchCallTool
        (some [("name", JValue.str "list_react_flow_utilities"),
               ("arguments", JValue.obj [])]) startState).2).trace =
      [Event.breakerEnter, Event.breakerEnter,
       Event.handlerRun "list_react_flow_utilities"] := by
  have h := call_tool_double_breaker_entry "list_react_flow_utilities"
    handleListUtilities [] startState (by rfl) (by rfl)
  simpa using h

end RFMcp
